import Mathlib

/-!
A shallow embedding of the Azure cloud-provider reconciliation logic of this
repository (load balancer, security group and route reconciliation), together
with theorems about the reconcile operations.

Conventions of the embedding:
- Go pointer fields that the code checks against nil are modelled as Option;
  pointer fields that the code always dereferences (names, identifiers) are
  modelled as plain String values, with the empty string standing for an
  identifier the remote side has not assigned yet.
- Go multiple return values (T, bool, error) are modelled as products with an
  Option error component; helper functions that Go writes as (T, error) are
  modelled as Except.
- Remote CRUD clients are modelled by a World record of key/value lists; a
  failed lookup stands for the HTTP 404 outcome that
  checkResourceExistsFromError converts into exists=false. Transient remote
  failures are environment nondeterminism and are not part of the World model.
- Case-insensitive string operations (strings.EqualFold, the ToUpper/HasPrefix
  combination in serviceOwnsRule) are modelled by uppercasing the character
  list of the string, an ASCII model of the Go Unicode fold.
-/

/-- Error outcomes of the reconciliation code. Each constructor corresponds to
one fmt.Errorf site in the source. -/
inductive AzError where
  /-- loadbalancer is misconfigured with a different backend pool -/
  | misconfiguredLoadBalancer
  /-- Unknown Protocol was requested -/
  | unknownProtocol
  /-- azurecp:loadbalancer: out of nsg priorities -/
  | outOfPriorities
  /-- The subnet has a route table, but it was unrecognized. Refusing to modify it. -/
  | subnetRouteTableConflict
  /-- failed to retrieve subnet -/
  | subnetNotFound
  /-- failed to retrieve vm instance / create: target vm did not exist -/
  | vmNotFound
  /-- failed to retrieve vm nic -/
  | nicNotFound
  /-- failed to find a primary nic for the vm -/
  | noPrimaryNic
  /-- cannot determine primary ipconfig -/
  | ambiguousIPConfig
  /-- failed to find a primary ipconfig for the nic -/
  | noPrimaryIPConfig
  deriving DecidableEq

/-- A Go error value as seen by checkResourceExistsFromError: either an
autorest.DetailedError carrying a status code (a nil interface status is
Option.none) and a message, or an error of any other dynamic type. -/
inductive GoError where
  | detailedError (statusCode : Option Int) (message : String)
  | otherError (message : String)
  deriving DecidableEq

/-- The uppercased character list of a string; ASCII model of strings.ToUpper. -/
def upperChars (s : String) : List Char :=
  s.data.map Char.toUpper

/-- ASCII model of strings.EqualFold: compare uppercased character lists. -/
def eqFold (a b : String) : Bool :=
  upperChars a == upperChars b

/-- api.ServicePort: protocol is the api.Protocol string (TCP or UDP),
port the exposed port, nodePort the node port. -/
structure ServicePort where
  protocol : String
  port : Int
  nodePort : Int
  deriving DecidableEq

/-- api.Service restricted to the fields this code reads: namespace-qualified
name, the port list, and the value of cloudprovider.GetLoadBalancerName for
this service (see GetLoadBalancerName below). -/
structure Service where
  namespaceName : String
  name : String
  loadBalancerName : String
  ports : List ServicePort
  deriving DecidableEq

/-- Modelled from the spec: cloudprovider.GetLoadBalancerName is not part of
this slice of the repository; the spec describes it as a pure, deterministic,
collision-free name derived from the service identity. We model it as a field
carried by the service record, which keeps it deterministic per service. -/
def GetLoadBalancerName (service : Service) : String :=
  service.loadBalancerName

/-- network.BackendAddressPool with the fields this code touches. -/
structure BackendAddressPool where
  name : String
  id : String
  deriving DecidableEq

/-- network.FrontendIPConfiguration: publicIPAddressID is the ID of the
referenced PublicIPAddress (Properties.PublicIPAddress.ID). -/
structure FrontendIPConfiguration where
  name : String
  id : String
  publicIPAddressID : String
  deriving DecidableEq

/-- network.Probe with its Properties flattened. -/
structure Probe where
  name : String
  id : String
  protocol : String
  port : Int
  intervalInSeconds : Int
  numberOfProbes : Int
  deriving DecidableEq

/-- network.LoadBalancingRule with its Properties flattened; the SubResource
references are kept as identifier strings. -/
structure LoadBalancingRule where
  name : String
  id : String
  protocol : String
  frontendIPConfigurationID : String
  backendAddressPoolID : String
  probeID : String
  frontendPort : Int
  backendPort : Int
  deriving DecidableEq

/-- network.LoadBalancer with Properties flattened. The three list-valued
fields are pointers the Go code compares against nil, hence Option. -/
structure LoadBalancer where
  name : String
  backendAddressPools : Option (List BackendAddressPool)
  frontendIPConfigurations : Option (List FrontendIPConfiguration)
  probes : Option (List Probe)
  loadBalancingRules : Option (List LoadBalancingRule)
  deriving DecidableEq

/-- network.SecurityRule with Properties flattened. Priority is a pointer that
is nil until the reconciler assigns it, hence Option. -/
structure SecurityRule where
  name : String
  id : String
  protocol : String
  sourcePortRange : String
  destinationPortRange : String
  sourceAddressPrefix : String
  destinationAddressPrefix : String
  access : String
  direction : String
  priority : Option Int
  deriving DecidableEq

/-- network.SecurityGroup with Properties flattened. -/
structure SecurityGroup where
  name : String
  securityRules : Option (List SecurityRule)
  deriving DecidableEq

/-- network.PublicIPAddress restricted to the fields this code reads. -/
structure PublicIPAddress where
  name : String
  id : String
  ipAddress : String
  deriving DecidableEq

/-- api.LoadBalancerIngress. -/
structure LoadBalancerIngress where
  ip : String
  deriving DecidableEq

/-- api.LoadBalancerStatus. -/
structure LoadBalancerStatus where
  ingress : List LoadBalancerIngress
  deriving DecidableEq

/-- compute.NetworkInterfaceReference: the identifier plus the Primary flag.
The Go code dereferences the Primary pointer unconditionally in the multi-NIC
branch, so it is modelled as a plain Bool. -/
structure NicRef where
  id : String
  primary : Bool
  deriving DecidableEq

/-- compute.VirtualMachine restricted to the NIC references this code reads. -/
structure VirtualMachine where
  name : String
  networkInterfaces : List NicRef
  deriving DecidableEq

/-- network.InterfaceIPConfiguration: private IP plus the load balancer
backend pool membership list (a pointer the code checks against nil). -/
structure IPConfiguration where
  name : String
  privateIPAddress : String
  loadBalancerBackendAddressPools : Option (List BackendAddressPool)
  deriving DecidableEq

/-- network.Interface restricted to the fields this code reads. The Go code
dereferences the IPConfigurations pointer unconditionally, so it is a plain
list here. -/
structure Interface where
  name : String
  ipConfigurations : List IPConfiguration
  deriving DecidableEq

/-- network.Subnet: routeTableID models Properties.RouteTable, a pointer the
code checks against nil and whose ID it then dereferences. -/
structure Subnet where
  name : String
  routeTableID : Option String
  deriving DecidableEq

/-- network.RouteTable restricted to name and identifier. -/
structure RouteTable where
  name : String
  id : String
  deriving DecidableEq

/-- network.Route with Properties flattened. -/
structure Route where
  name : String
  addressPrefix : String
  nextHopType : String
  nextHopIPAddress : String
  deriving DecidableEq

/-- cloudprovider.Route. -/
structure KubeRoute where
  name : String
  targetInstance : String
  destinationCIDR : String
  deriving DecidableEq

/-- The AzureCloud configuration fields used by the reconciliation code. -/
structure AzureCloud where
  subscriptionID : String
  resourceGroup : String
  location : String
  vnetName : String
  subnetName : String
  securityGroupName : String
  deriving DecidableEq

/-- getLoadBalancerName: the load balancer of the cluster is named after it. -/
def getLoadBalancerName (clusterName : String) : String :=
  clusterName

/-- getBackendPoolName. -/
def getBackendPoolName (clusterName : String) : String :=
  clusterName

/-- getRulePrefix: the deterministic owner marker put in front of every rule
and probe name of a service. -/
def getRulePrefix (service : Service) : String :=
  GetLoadBalancerName service

/-- serviceOwnsRule: strings.HasPrefix(strings.ToUpper(rule), strings.ToUpper(prefix)). -/
def serviceOwnsRule (service : Service) (rule : String) : Bool :=
  (upperChars (getRulePrefix service)).isPrefixOf (upperChars rule)

/-- getRuleName: prefix-protocol-port-nodePort. -/
def getRuleName (service : Service) (port : ServicePort) : String :=
  getRulePrefix service ++ "-" ++ port.protocol ++ "-" ++ toString port.port
    ++ "-" ++ toString port.nodePort

/-- getServiceName: the human readable namespace/name form. -/
def getServiceName (service : Service) : String :=
  service.namespaceName ++ "/" ++ service.name

/-- getFrontendIPConfigName. -/
def getFrontendIPConfigName (service : Service) : String :=
  GetLoadBalancerName service

/-- getPublicIPName: clusterName-serviceLoadBalancerName. -/
def getPublicIPName (clusterName : String) (service : Service) : String :=
  clusterName ++ "-" ++ GetLoadBalancerName service

/-- getMachineID. -/
def getMachineID (az : AzureCloud) (machineName : String) : String :=
  "/subscriptions/" ++ az.subscriptionID ++ "/resourceGroups/" ++ az.resourceGroup
    ++ "/providers/Microsoft.Compute/virtualMachines/" ++ machineName

/-- getFrontendIPConfigID. -/
def getFrontendIPConfigID (az : AzureCloud) (lbName configName : String) : String :=
  "/subscriptions/" ++ az.subscriptionID ++ "/resourceGroups/" ++ az.resourceGroup
    ++ "/providers/Microsoft.Network/loadBalancers/" ++ lbName
    ++ "/frontendIPConfigurations/" ++ configName

/-- getBackendPoolID. -/
def getBackendPoolID (az : AzureCloud) (lbName backendPoolName : String) : String :=
  "/subscriptions/" ++ az.subscriptionID ++ "/resourceGroups/" ++ az.resourceGroup
    ++ "/providers/Microsoft.Network/loadBalancers/" ++ lbName
    ++ "/backendAddressPools/" ++ backendPoolName

/-- getLoadBalancerRuleID. -/
def getLoadBalancerRuleID (az : AzureCloud) (lbName lbRuleName : String) : String :=
  "/subscriptions/" ++ az.subscriptionID ++ "/resourceGroups/" ++ az.resourceGroup
    ++ "/providers/Microsoft.Network/loadBalancers/" ++ lbName
    ++ "/loadBalancingRules/" ++ lbRuleName

/-- getLoadBalancerProbeID. -/
def getLoadBalancerProbeID (az : AzureCloud) (lbName lbRuleName : String) : String :=
  "/subscriptions/" ++ az.subscriptionID ++ "/resourceGroups/" ++ az.resourceGroup
    ++ "/providers/Microsoft.Network/loadBalancers/" ++ lbName
    ++ "/probes/" ++ lbRuleName

/-- getSecurityRuleID. -/
def getSecurityRuleID (az : AzureCloud) (securityRuleName : String) : String :=
  "/subscriptions/" ++ az.subscriptionID ++ "/resourceGroups/" ++ az.resourceGroup
    ++ "/providers/Microsoft.Network/networkSecurityGroups/" ++ az.securityGroupName
    ++ "/securityRules/" ++ securityRuleName

/-- strings.Split on the slash separator, modelled on the character list of
the string (structural recursion keeps it kernel-computable); like the Go
function it yields one, possibly empty, segment more than there are
separators, so the result is never the empty list. -/
def splitSegments : List Char → List (List Char)
  | [] => [[]]
  | c :: rest =>
    if c = '/' then
      [] :: splitSegments rest
    else
      match splitSegments rest with
      | [] => [[c]]
      | seg :: segs => (c :: seg) :: segs

/-- getLastSegment: the final path component of a hierarchical identifier. -/
def getLastSegment (ID : String) : String :=
  String.mk ((splitSegments ID.data).getLastD [])

/-- getRouteTableName. -/
def getRouteTableName (clusterName : String) : String :=
  clusterName

/-- getRouteName. -/
def getRouteName (instanceName : String) : String :=
  instanceName

/-- getInstanceName. -/
def getInstanceName (routeName : String) : String :=
  routeName

/-- Modelled from the spec: the repository has no function building a route
table identifier; the spec (section 6) gives the resource-manager identifier
scheme, subscriptions/resourceGroups/providers/type/name, which the remote
side uses when it assigns the ID of a created route table. -/
def getRouteTableID (az : AzureCloud) (routeTableName : String) : String :=
  "/subscriptions/" ++ az.subscriptionID ++ "/resourceGroups/" ++ az.resourceGroup
    ++ "/providers/Microsoft.Network/routeTables/" ++ routeTableName

/-- getProtosFromKubeProto: maps the Kubernetes protocol string to the SDK
transport, security-rule and probe protocol constants (Tcp and Udp string
values); the probe protocol is Tcp for both. Unknown protocols are an error
(Go additionally returns empty-string protocol values that no caller uses). -/
def getProtosFromKubeProto (protocol : String) : Except AzError (String × String × String) :=
  if protocol == "TCP" then
    .ok ("Tcp", "Tcp", "Tcp")
  else if protocol == "UDP" then
    .ok ("Udp", "Udp", "Tcp")
  else
    .error .unknownProtocol

/-- loadBalancerMinimumPriority. -/
def loadBalancerMinimumPriority : Int := 500

/-- loadBalancerMaximumPriority. -/
def loadBalancerMaximumPriority : Int := 4096

/-- The loop of getNextAvailablePriority. The Go loop runs while
smallest < loadBalancerMaximumPriority, incrementing smallest by one each time
some rule already holds it; fuel counts the candidate values still below the
maximum, so fuel = (loadBalancerMaximumPriority - smallest).toNat at every
call, and fuel 0 is exactly the failed loop guard. The Priority pointer of
every scanned rule is dereferenced by the Go code; absent priorities read as 0
here, a value outside the scanned range. -/
def nextAvailablePriorityFrom (rules : List SecurityRule) : Nat → Int → Int × Option AzError
  | 0, _ => (-1, some .outOfPriorities)
  | fuel + 1, smallest =>
    if rules.any (fun rule => rule.priority.getD 0 == smallest) then
      nextAvailablePriorityFrom rules fuel (smallest + 1)
    else
      (smallest, none)

/-- getNextAvailablePriority: first free priority at or above the minimum. -/
def getNextAvailablePriority (rules : List SecurityRule) : Int × Option AzError :=
  nextAvailablePriorityFrom rules
    (loadBalancerMaximumPriority - loadBalancerMinimumPriority).toNat
    loadBalancerMinimumPriority

/-- checkResourceExistsFromError: nil error means the resource exists; an
autorest.DetailedError with status 404 means it does not exist; otherwise the
value v of the type assertion is returned, which for an error of any other
dynamic type is the zero autorest.DetailedError (nil status, empty message),
not the original error. -/
def checkResourceExistsFromError (err : Option GoError) : Bool × Option GoError :=
  match err with
  | none => (true, none)
  | some (.detailedError statusCode message) =>
    if statusCode == some 404 then
      (false, none)
    else
      (false, some (.detailedError statusCode message))
  | some (.otherError _) => (false, some (.detailedError none ""))

/-- getPrimaryNicID, the strict revision used by the load balancer code: a
single NIC reference is trusted; otherwise the first reference flagged primary
is chosen; no reference at all is an error. -/
def getPrimaryNicID (machine : VirtualMachine) : Except AzError String :=
  match
    (if machine.networkInterfaces.length == 1 then
      machine.networkInterfaces.head?
    else
      machine.networkInterfaces.find? (fun ref => ref.primary))
  with
  | some ref => .ok ref.id
  | none => .error .noPrimaryNic

/-- getPrimaryIPConfig, the strict revision: exactly one IP configuration is
required, anything else cannot determine the primary ipconfig. -/
def getPrimaryIPConfig (nic : Interface) : Except AzError IPConfiguration :=
  match nic.ipConfigurations with
  | [ipconfig] => .ok ipconfig
  | _ => .error .ambiguousIPConfig

/-- getPrimaryNicID, the older revision used by the route code: it takes index
0 unconditionally; an empty reference list makes the Go code fail with an
index-out-of-range panic, modelled as none. -/
def getPrimaryNicID0 (machine : VirtualMachine) : Option String :=
  machine.networkInterfaces.head?.map (fun ref => ref.id)

/-- getPrimaryIPConfig, the older revision used by the route code: index 0
unconditionally; the empty-list panic is modelled as none. -/
def getPrimaryIPConfig0 (nic : Interface) : Option IPConfiguration :=
  nic.ipConfigurations.head?

/-- The predicate under which an existing probe survives the removal pass of
reconcileLoadBalancer: it is dropped exactly when this service owns it and its
identifier matches no expected probe identifier. -/
def probeKeep (az : AzureCloud) (lbName : String) (service : Service)
    (expectedProbes : List Probe) (existingProbe : Probe) : Bool :=
  !(serviceOwnsRule service existingProbe.name
    && !(expectedProbes.any (fun expectedProbe =>
          eqFold existingProbe.id (getLoadBalancerProbeID az lbName expectedProbe.name))))

/-- Whether an expected probe is already present among the existing probes,
matched by identifier. -/
def probeFound (az : AzureCloud) (lbName : String) (existingProbes : List Probe)
    (expectedProbe : Probe) : Bool :=
  existingProbes.any (fun existingProbe =>
    eqFold existingProbe.id (getLoadBalancerProbeID az lbName expectedProbe.name))

/-- The survival predicate of the rule removal pass, mirror of probeKeep. -/
def ruleKeep (az : AzureCloud) (lbName : String) (service : Service)
    (expectedRules : List LoadBalancingRule) (existingRule : LoadBalancingRule) : Bool :=
  !(serviceOwnsRule service existingRule.name
    && !(expectedRules.any (fun expectedRule =>
          eqFold existingRule.id (getLoadBalancerRuleID az lbName expectedRule.name))))

/-- Whether an expected rule is already present among the existing rules. -/
def ruleFound (az : AzureCloud) (lbName : String) (existingRules : List LoadBalancingRule)
    (expectedRule : LoadBalancingRule) : Bool :=
  existingRules.any (fun existingRule =>
    eqFold existingRule.id (getLoadBalancerRuleID az lbName expectedRule.name))

/-- Backend pool step of reconcileLoadBalancer. If the pool list is nil (with
a load balancer wanted) or empty, the canonical pool is installed (the remote
side has not assigned its identifier yet, so it is empty). Otherwise a pool
count other than one, or a single pool whose identifier does not match the
canonical pool identifier case-insensitively, is the misconfiguration error.
When the pool list is nil and no load balancer is wanted the Go code panics on
a nil dereference while evaluating the length; the theorems below stay out of
that region. -/
def reconcileLBPool (poolName poolID : String) (wantLb : Bool) (lb : LoadBalancer) :
    Except AzError (LoadBalancer × Bool) :=
  if (wantLb && lb.backendAddressPools.isNone)
      || (lb.backendAddressPools.getD []).length == 0 then
    .ok ({ lb with backendAddressPools := some [{ name := poolName, id := "" }] }, true)
  else if (lb.backendAddressPools.getD []).length != 1
      || !(eqFold ((lb.backendAddressPools.getD []).headD { name := "", id := "" }).id poolID) then
    .error .misconfiguredLoadBalancer
  else
    .ok (lb, false)

/-- Frontend IP configuration step of reconcileLoadBalancer. Without a desired
public IP every configuration matching the canonical identifier is dropped
(the Go loop walks the list downward removing in place, which is this filter);
with one, a configuration referencing the public IP is appended unless a
matching-by-identifier configuration already exists. -/
def reconcileLBConfigs (pip : Option PublicIPAddress) (configName configID : String)
    (lb : LoadBalancer) : LoadBalancer × Bool :=
  let existing := lb.frontendIPConfigurations.getD []
  match pip with
  | none =>
    let kept := existing.filter (fun config => !(eqFold config.id configID))
    if kept.length != existing.length then
      ({ lb with frontendIPConfigurations := some kept }, true)
    else
      (lb, false)
  | some p =>
    if existing.any (fun config => eqFold config.id configID) then
      (lb, false)
    else
      let added : FrontendIPConfiguration :=
        { name := configName, id := "", publicIPAddressID := p.id }
      ({ lb with frontendIPConfigurations := some (existing ++ [added]) }, true)

/-- Probe step of reconcileLoadBalancer. The Go removal loop walks the list
downward removing in place, which is the filter by probeKeep; the addition
loop scans updatedProbes[:existingProbeCount], a view whose entries are always
drawn from the original probe list, and since a removed probe matches no
expected identifier this is the same as scanning the original list. The probe
field of the load balancer is reassigned only when something changed. -/
def reconcileLBProbes (az : AzureCloud) (lbName : String) (service : Service)
    (expectedProbes : List Probe) (lb : LoadBalancer) : LoadBalancer × Bool :=
  let existing := lb.probes.getD []
  let kept := existing.filter (probeKeep az lbName service expectedProbes)
  let toAdd := expectedProbes.filter (fun expectedProbe =>
    !(probeFound az lbName existing expectedProbe))
  let dirty := (kept.length != existing.length) || !toAdd.isEmpty
  (if dirty then { lb with probes := some (kept ++ toAdd) } else lb, dirty)

/-- Rule step of reconcileLoadBalancer, mirror of the probe step. -/
def reconcileLBRules (az : AzureCloud) (lbName : String) (service : Service)
    (expectedRules : List LoadBalancingRule) (lb : LoadBalancer) : LoadBalancer × Bool :=
  let existing := lb.loadBalancingRules.getD []
  let kept := existing.filter (ruleKeep az lbName service expectedRules)
  let toAdd := expectedRules.filter (fun expectedRule =>
    !(ruleFound az lbName existing expectedRule))
  let dirty := (kept.length != existing.length) || !toAdd.isEmpty
  (if dirty then { lb with loadBalancingRules := some (kept ++ toAdd) } else lb, dirty)

/-- The expected probe and rule pair per service port, in port order: one
probe polling the node port (interval 5 seconds, 2 probes) and one rule from
the exposed port to the node port, both named by getRuleName; an unknown
protocol aborts with the protocol error exactly where the Go loop returns. -/
def expectedProbesAndRules (az : AzureCloud) (lbName configID poolID : String)
    (service : Service) : List ServicePort → Except AzError (List Probe × List LoadBalancingRule)
  | [] => .ok ([], [])
  | port :: rest =>
    match getProtosFromKubeProto port.protocol with
    | .error e => .error e
    | .ok protos =>
      match expectedProbesAndRules az lbName configID poolID service rest with
      | .error e => .error e
      | .ok pr =>
        let lbRuleName := getRuleName service port
        .ok
          ({ name := lbRuleName, id := "", protocol := protos.2.2, port := port.nodePort,
             intervalInSeconds := 5, numberOfProbes := 2 } :: pr.1,
           { name := lbRuleName, id := "", protocol := protos.1,
             frontendIPConfigurationID := configID, backendAddressPoolID := poolID,
             probeID := getLoadBalancerProbeID az lbName lbRuleName,
             frontendPort := port.port, backendPort := port.nodePort } :: pr.2)

/-- reconcileLoadBalancer: backend pool invariant step, frontend IP
configuration diff, then the probe and rule diffs; the dirty flags of the
steps are joined by or. A misconfigured backend pool aborts before anything
was changed; an unknown protocol aborts after the pool and frontend steps,
returning the object as mutated so far, exactly as the Go code does. -/
def reconcileLoadBalancer (az : AzureCloud) (lb : LoadBalancer) (pip : Option PublicIPAddress)
    (clusterName : String) (service : Service) (hosts : List String) :
    LoadBalancer × Bool × Option AzError :=
  let lbName := getLoadBalancerName clusterName
  let configName := getFrontendIPConfigName service
  let configID := getFrontendIPConfigID az lbName configName
  let poolName := getBackendPoolName clusterName
  let poolID := getBackendPoolID az lbName poolName
  match reconcileLBPool poolName poolID pip.isSome lb with
  | .error e => (lb, false, some e)
  | .ok poolResult =>
    let configsResult := reconcileLBConfigs pip configName configID poolResult.1
    match expectedProbesAndRules az lbName configID poolID service service.ports with
    | .error e => (configsResult.1, false, some e)
    | .ok expected =>
      let probesResult := reconcileLBProbes az lbName service expected.1 configsResult.1
      let rulesResult := reconcileLBRules az lbName service expected.2 probesResult.1
      (rulesResult.1,
        poolResult.2 || configsResult.2 || probesResult.2 || rulesResult.2,
        none)

/-- The expected security rule per service port: allow Inbound from Internet,
any source port, destination the node port, named by getRuleName; the priority
stays unassigned until the rule is actually appended. -/
def expectedSecurityRules (az : AzureCloud) (service : Service) :
    List ServicePort → Except AzError (List SecurityRule)
  | [] => .ok []
  | port :: rest =>
    match getProtosFromKubeProto port.protocol with
    | .error e => .error e
    | .ok protos =>
      match expectedSecurityRules az service rest with
      | .error e => .error e
      | .ok rules =>
        .ok ({ name := getRuleName service port, id := "", protocol := protos.2.1,
               sourcePortRange := "*", destinationPortRange := toString port.nodePort,
               sourceAddressPrefix := "Internet", destinationAddressPrefix := "*",
               access := "Allow", direction := "Inbound", priority := none } :: rules)

/-- The survival predicate of the security rule removal pass. -/
def sgRuleKeep (az : AzureCloud) (service : Service) (expectedRules : List SecurityRule)
    (existingRule : SecurityRule) : Bool :=
  !(serviceOwnsRule service existingRule.name
    && !(expectedRules.any (fun expectedRule =>
          eqFold existingRule.id (getSecurityRuleID az expectedRule.name))))

/-- Whether an expected security rule is already present, matched by
identifier against the original rule list of the security group (the Go
addition loop scans sg.Properties.SecurityRules, not the updated list). -/
def sgRuleFound (az : AzureCloud) (originalRules : List SecurityRule)
    (expectedRule : SecurityRule) : Bool :=
  originalRules.any (fun existingRule =>
    eqFold existingRule.id (getSecurityRuleID az expectedRule.name))

/-- The addition loop of reconcileSecurityGroup: each expected rule absent
from the original rule list receives the next free priority, computed against
the updated list accumulated so far, and is appended; running out of
priorities aborts the reconcile. -/
def addSecurityRules (az : AzureCloud) (originalRules : List SecurityRule) :
    List SecurityRule → List SecurityRule → Bool → Except AzError (List SecurityRule × Bool)
  | [], updated, dirty => .ok (updated, dirty)
  | expectedRule :: rest, updated, dirty =>
    if sgRuleFound az originalRules expectedRule then
      addSecurityRules az originalRules rest updated dirty
    else
      match getNextAvailablePriority updated with
      | (_, some e) => .error e
      | (priority, none) =>
        addSecurityRules az originalRules rest
          (updated ++ [{ expectedRule with priority := some priority }]) true

/-- reconcileSecurityGroup: drop owned rules matching no expected identifier
(the Go loop walks the list downward removing in place, which is this filter),
then append the missing expected rules with freshly assigned priorities. The
rule field of the group is reassigned only when something changed. The Go
addition loop dereferences the SecurityRules pointer of the group; when that
field is nil and some rule is expected the Go code panics, so the theorems
below stay out of that region. -/
def reconcileSecurityGroup (az : AzureCloud) (sg : SecurityGroup) (clusterName : String)
    (service : Service) : SecurityGroup × Bool × Option AzError :=
  match expectedSecurityRules az service service.ports with
  | .error e => (sg, false, some e)
  | .ok expected =>
    let existing := sg.securityRules.getD []
    let kept := existing.filter (sgRuleKeep az service expected)
    let dirtyDrop := kept.length != existing.length
    match addSecurityRules az existing expected kept dirtyDrop with
    | .error e => (sg, false, some e)
    | .ok updated =>
      (if updated.2 then { sg with securityRules := some updated.1 } else sg,
        updated.2, none)

/-- The observable remote state: every resource family keyed by name, plus
counters of the write operations issued against subnets and NICs. A missing
key is the 404 outcome that checkResourceExistsFromError converts into
exists=false; transient remote failures are not modelled. -/
structure World where
  loadBalancers : List (String × LoadBalancer)
  publicIPs : List (String × PublicIPAddress)
  securityGroups : List (String × SecurityGroup)
  routeTables : List (String × RouteTable)
  subnet : Option Subnet
  routes : List (String × Route)
  vms : List (String × VirtualMachine)
  nics : List (String × Interface)
  subnetWrites : Nat
  nicWrites : Nat
  deriving DecidableEq

/-- Keyed lookup in a World table. -/
def lookupW {α : Type} (table : List (String × α)) (key : String) : Option α :=
  match table.find? (fun kv => kv.fst == key) with
  | some kv => some kv.snd
  | none => none

/-- Keyed insert-or-replace in a World table, the CreateOrUpdate model. -/
def upsert {α : Type} (table : List (String × α)) (key : String) (value : α) :
    List (String × α) :=
  match table with
  | [] => [(key, value)]
  | kv :: rest =>
    if kv.fst == key then (key, value) :: rest else kv :: upsert rest key value

/-- Keyed removal from a World table, the Delete model. -/
def removeKey {α : Type} (table : List (String × α)) (key : String) :
    List (String × α) :=
  table.filter (fun kv => kv.fst != key)

/-- GetLoadBalancer: the status exists only when both the cluster load
balancer and the public IP of the service exist remotely; a missing public IP
is exists=false without error; the reported ingress IP is the address of the
public IP. -/
def GetLoadBalancer (az : AzureCloud) (w : World) (clusterName : String)
    (service : Service) : Option LoadBalancerStatus × Bool × Option AzError :=
  let lbName := getLoadBalancerName clusterName
  let pipName := getPublicIPName clusterName service
  match lookupW w.loadBalancers lbName with
  | none => (none, false, none)
  | some _ =>
    match lookupW w.publicIPs pipName with
    | none => (none, false, none)
    | some pip => (some { ingress := [{ ip := pip.ipAddress }] }, true, none)

/-- ensureHostInPool: fetch the VM, resolve its primary NIC and the primary IP
configuration of that NIC, then append the backend pool identifier to the
membership list of that configuration if it is absent (matched
case-insensitively), issuing the NIC update only in that case. The updated NIC
is written back under its own name, as the Go code does; the single IP
configuration enforced by getPrimaryIPConfig is replaced by its updated
version. -/
def ensureHostInPool (az : AzureCloud) (w : World) (serviceName machineName backendPoolID : String) :
    World × Option AzError :=
  match lookupW w.vms machineName with
  | none => (w, some .vmNotFound)
  | some machine =>
    match getPrimaryNicID machine with
    | .error e => (w, some e)
    | .ok primaryNicID =>
      let nicName := getLastSegment primaryNicID
      match lookupW w.nics nicName with
      | none => (w, some .nicNotFound)
      | some nic =>
        match getPrimaryIPConfig nic with
        | .error e => (w, some e)
        | .ok primaryIPConfig =>
          let pools := primaryIPConfig.loadBalancerBackendAddressPools.getD []
          if pools.any (fun pool => eqFold backendPoolID pool.id) then
            (w, none)
          else
            let newPools := pools ++ [{ name := "", id := backendPoolID }]
            let newNic := { nic with ipConfigurations :=
              [{ primaryIPConfig with loadBalancerBackendAddressPools := some newPools }] }
            ({ w with nics := upsert w.nics nic.name newNic, nicWrites := w.nicWrites + 1 },
              none)

/-- getIPForMachine, used by the route code: resolve the VM, its primary NIC
by the older index-0 revision, then the private IP of the primary IP
configuration, also by the older index-0 revision. -/
def getIPForMachine (az : AzureCloud) (w : World) (machineName : String) :
    Except AzError String :=
  match lookupW w.vms machineName with
  | none => .error .vmNotFound
  | some machine =>
    match getPrimaryNicID0 machine with
    | none => .error .noPrimaryNic
    | some nicID =>
      match lookupW w.nics (getLastSegment nicID) with
      | none => .error .nicNotFound
      | some nic =>
        match getPrimaryIPConfig0 nic with
        | none => .error .noPrimaryIPConfig
        | some ipConfig => .ok ipConfig.privateIPAddress

/-- The tail of CreateRoute after the subnet check: resolve the private IP of
the target instance and upsert a route named after it with next hop type
VirtualAppliance. -/
def createRouteFinish (az : AzureCloud) (w : World) (kubeRoute : KubeRoute) :
    World × Option AzError :=
  match getIPForMachine az w kubeRoute.targetInstance with
  | .error e => (w, some e)
  | .ok targetIP =>
    let routeName := getRouteName kubeRoute.targetInstance
    let route : Route :=
      { name := routeName
        addressPrefix := kubeRoute.destinationCIDR
        nextHopType := "VirtualAppliance"
        nextHopIPAddress := targetIP }
    ({ w with routes := upsert w.routes routeName route }, none)

/-- CreateRoute: fetch or lazily create the cluster route table (the remote
side assigns its resource-manager identifier, getRouteTableID); fetch the
cluster subnet; if the subnet references a route table other than the cluster
one (compared by identifier, case-sensitively) refuse with the conflict error,
touching nothing; if it references none, bind it to the cluster table, which
is one subnet write; if it already references the cluster table, proceed
without rebinding. Then upsert the per-instance route. -/
def CreateRoute (az : AzureCloud) (w : World) (clusterName nameHint : String)
    (kubeRoute : KubeRoute) : World × Option AzError :=
  let routeTableName := getRouteTableName clusterName
  let fetched : World × RouteTable :=
    match lookupW w.routeTables routeTableName with
    | some routeTable => (w, routeTable)
    | none =>
      let routeTable : RouteTable :=
        { name := routeTableName, id := getRouteTableID az routeTableName }
      ({ w with routeTables := upsert w.routeTables routeTableName routeTable }, routeTable)
  let w1 := fetched.1
  let routeTable := fetched.2
  match w1.subnet with
  | none => (w1, some .subnetNotFound)
  | some subnet =>
    match subnet.routeTableID with
    | some boundID =>
      if boundID == routeTable.id then
        createRouteFinish az w1 kubeRoute
      else
        (w1, some .subnetRouteTableConflict)
    | none =>
      let newSubnet := { subnet with routeTableID := some routeTable.id }
      let w2 := { w1 with subnet := some newSubnet, subnetWrites := w1.subnetWrites + 1 }
      createRouteFinish az w2 kubeRoute

/-- The body of EnsureLoadBalancerDeleted after the port list of the service
was cleared: reconcile the load balancer with no desired public IP, updating
it while frontend IP configurations remain and deleting it otherwise; then
reconcile the security group; then delete the public IP. -/
def ensureLoadBalancerDeletedSteps (az : AzureCloud) (w : World) (clusterName : String)
    (service : Service) : World × Option AzError :=
  let lbName := getLoadBalancerName clusterName
  let pipName := getPublicIPName clusterName service
  let step1 : World × Option AzError :=
    match lookupW w.loadBalancers lbName with
    | none => (w, none)
    | some lb =>
      let r := reconcileLoadBalancer az lb none clusterName service []
      match r.2.2 with
      | some e => (w, some e)
      | none =>
        if r.2.1 then
          if 0 < (r.1.frontendIPConfigurations.getD []).length then
            ({ w with loadBalancers := upsert w.loadBalancers r.1.name r.1 }, none)
          else
            ({ w with loadBalancers := removeKey w.loadBalancers lbName }, none)
        else
          (w, none)
  match step1.2 with
  | some e => (step1.1, some e)
  | none =>
    let w1 := step1.1
    let step2 : World × Option AzError :=
      match lookupW w1.securityGroups az.securityGroupName with
      | none => (w1, none)
      | some sg =>
        let r := reconcileSecurityGroup az sg clusterName service
        match r.2.2 with
        | some e => (w1, some e)
        | none =>
          if r.2.1 then
            ({ w1 with securityGroups := upsert w1.securityGroups r.1.name r.1 }, none)
          else
            (w1, none)
    match step2.2 with
    | some e => (step2.1, some e)
    | none =>
      let w2 := step2.1
      ({ w2 with publicIPs := removeKey w2.publicIPs pipName }, none)

/-- EnsureLoadBalancerDeleted. The Go code clears service.Spec.Ports through
the caller pointer before reconciling, so the reconcile logic computes the
full removal; the post-call view of the Service argument of the caller is
returned as the second component. -/
def EnsureLoadBalancerDeleted (az : AzureCloud) (w : World) (clusterName : String)
    (service : Service) : World × Service × Option AzError :=
  let cleared := { service with ports := [] }
  let r := ensureLoadBalancerDeletedSteps az w clusterName cleared
  (r.1, cleared, r.2)

/-! Basic helper lemmas. -/

/-- Configuration fixture of the end-to-end scenario of claim C7. -/
def az7 : AzureCloud :=
  { subscriptionID := "sub", resourceGroup := "rg", location := "eastus", vnetName := "vnet",
    subnetName := "subnet", securityGroupName := "nsg" }

/-- Service fixture of claim C7: a single TCP port 80 with node port 30080. -/
def svc7 : Service :=
  { namespaceName := "default", name := "svc", loadBalancerName := "asvcuid",
    ports := [{ protocol := "TCP", port := 80, nodePort := 30080 }] }

/-- Empty load balancer fixture of claim C7, as EnsureLoadBalancer constructs
it when the remote side has none: all list fields nil. -/
def lb7 : LoadBalancer :=
  { name := "kube", backendAddressPools := none, frontendIPConfigurations := none,
    probes := none, loadBalancingRules := none }

/-- Public IP fixture of claim C7. -/
def pip7 : PublicIPAddress :=
  { name := "kube-asvcuid", id := "PIP-ID-7", ipAddress := "1.2.3.4" }

/-- Load balancer fixture of the claim C3 counterexample: the pool list is
present but empty, a pool count of zero. -/
def lbC3 : LoadBalancer :=
  { name := "kube", backendAddressPools := some [], frontendIPConfigurations := none,
    probes := none, loadBalancingRules := none }

/-- Load balancer fixture of the witness of amended claim C3: two pools. -/
def lbC3w : LoadBalancer :=
  { name := "kube"
    backendAddressPools := some [{ name := "a", id := "A" }, { name := "b", id := "B" }]
    frontendIPConfigurations := none
    probes := none
    loadBalancingRules := none }

/-- Configuration fixture of the claim C1 witness. -/
def az1 : AzureCloud :=
  { subscriptionID := "s"
    resourceGroup := "g"
    location := "l"
    vnetName := "v"
    subnetName := "n"
    securityGroupName := "nsg" }

/-- Service fixture of the claim C1 witness. -/
def svc1 : Service :=
  { namespaceName := "ns"
    name := "svc"
    loadBalancerName := "asvc1"
    ports := [{ protocol := "TCP", port := 80, nodePort := 30080 }] }

/-- The deterministic rule name of the single port of svc1. -/
def ruleName1 : String := "asvc1-TCP-80-30080"

/-- Expected probes of the claim C1 witness. -/
def eps1 : List Probe :=
  [{ name := ruleName1, id := "", protocol := "Tcp", port := 30080,
     intervalInSeconds := 5, numberOfProbes := 2 }]

/-- Expected rules of the claim C1 witness. -/
def ers1 : List LoadBalancingRule :=
  [{ name := ruleName1
     id := ""
     protocol := "Tcp"
     frontendIPConfigurationID := getFrontendIPConfigID az1 "c" "asvc1"
     backendAddressPoolID := getBackendPoolID az1 "c" "c"
     probeID := getLoadBalancerProbeID az1 "c" ruleName1
     frontendPort := 80
     backendPort := 30080 }]

/-- Expected security rules of the claim C1 witness. -/
def xrs1 : List SecurityRule :=
  [{ name := ruleName1
     id := ""
     protocol := "Tcp"
     sourcePortRange := "*"
     destinationPortRange := "30080"
     sourceAddressPrefix := "Internet"
     destinationAddressPrefix := "*"
     access := "Allow"
     direction := "Inbound"
     priority := none }]

/-- Canonical pool fixture of the claim C1 witness. -/
def pool1 : BackendAddressPool :=
  { name := "c", id := getBackendPoolID az1 "c" "c" }

/-- Canonical frontend configuration fixture of the claim C1 witness. -/
def fe1 : FrontendIPConfiguration :=
  { name := "asvc1"
    id := getFrontendIPConfigID az1 "c" "asvc1"
    publicIPAddressID := "PIP1" }

/-- Existing probe fixture of the claim C1 witness, identifier assigned. -/
def probe1 : Probe :=
  { name := ruleName1
    id := getLoadBalancerProbeID az1 "c" ruleName1
    protocol := "Tcp"
    port := 30080
    intervalInSeconds := 5
    numberOfProbes := 2 }

/-- Existing rule fixture of the claim C1 witness, identifier assigned. -/
def rule1 : LoadBalancingRule :=
  { name := ruleName1
    id := getLoadBalancerRuleID az1 "c" ruleName1
    protocol := "Tcp"
    frontendIPConfigurationID := getFrontendIPConfigID az1 "c" "asvc1"
    backendAddressPoolID := getBackendPoolID az1 "c" "c"
    probeID := getLoadBalancerProbeID az1 "c" ruleName1
    frontendPort := 80
    backendPort := 30080 }

/-- Existing security rule fixture of the claim C1 witness, identifier and
priority assigned. -/
def sgRule1 : SecurityRule :=
  { name := ruleName1
    id := getSecurityRuleID az1 ruleName1
    protocol := "Tcp"
    sourcePortRange := "*"
    destinationPortRange := "30080"
    sourceAddressPrefix := "Internet"
    destinationAddressPrefix := "*"
    access := "Allow"
    direction := "Inbound"
    priority := some 500 }

/-- Already-matching load balancer fixture of the claim C1 witness: canonical
pool, canonical frontend configuration, and the expected probe and rule with
their identifiers assigned by the remote side. -/
def lb1 : LoadBalancer :=
  { name := "c"
    backendAddressPools := some [pool1]
    frontendIPConfigurations := some [fe1]
    probes := some [probe1]
    loadBalancingRules := some [rule1] }

/-- Already-matching security group fixture of the claim C1 witness. -/
def sg1 : SecurityGroup :=
  { name := "nsg", securityRules := some [sgRule1] }

/-- Public IP fixture of the claim C1 witness. -/
def pip1 : PublicIPAddress :=
  { name := "c-asvc1", id := "PIP1", ipAddress := "9.9.9.9" }

/-- Service a fixture of the claim C5 witness. -/
def svcA : Service :=
  { namespaceName := "ns", name := "a", loadBalancerName := "aaaa",
    ports := [{ protocol := "TCP", port := 80, nodePort := 30080 }] }

/-- Service b fixture of the claim C5 witness, with a probe owned by b present
in the load balancer below. -/
def svcB : Service :=
  { namespaceName := "ns", name := "b", loadBalancerName := "bbbb", ports := [] }

/-- Probe fixture owned by service b. -/
def probeB : Probe :=
  { name := "bbbb-TCP-9-9", id := "XB", protocol := "Tcp", port := 9,
    intervalInSeconds := 5, numberOfProbes := 2 }

/-- Load balancer fixture of the claim C5 witness, holding a probe of b. -/
def lbC5 : LoadBalancer :=
  { name := "c", backendAddressPools := some [], frontendIPConfigurations := none,
    probes := some [probeB], loadBalancingRules := none }

/-- Security group fixture of the claim C5 witness. -/
def sgC5 : SecurityGroup :=
  { name := "nsg", securityRules := some [] }

/-- Kube route fixture of the claim C6 witness. -/
def krC6 : KubeRoute :=
  { name := "r", targetInstance := "vmx", destinationCIDR := "10.244.0.0/24" }

/-- Subnet fixture of the claim C6 witness, bound to a foreign route table. -/
def subC6 : Subnet :=
  { name := "subnet", routeTableID := some "OTHER-TABLE" }

/-- World fixture of the claim C6 witness: the cluster route table exists with
its resource-manager identifier and the subnet is bound to a foreign table. -/
def wC6 : World :=
  { loadBalancers := []
    publicIPs := []
    securityGroups := []
    routeTables := [("c", { name := "c", id := getRouteTableID az7 "c" })]
    subnet := some subC6
    routes := []
    vms := []
    nics := []
    subnetWrites := 0
    nicWrites := 0 }

/-- VM fixture of the claim C8 witness: two NIC references, none primary. -/
def vmC8multi : VirtualMachine :=
  { name := "vm2", networkInterfaces := [{ id := "a", primary := false },
    { id := "b", primary := false }] }

/-- NIC fixture of the claim C8 witness with no IP configuration. -/
def nicC8bad : Interface :=
  { name := "nic2", ipConfigurations := [] }

/-- IP configuration fixture of the claim C8 witness: no pool memberships. -/
def ipcC8 : IPConfiguration :=
  { name := "cfg", privateIPAddress := "10.0.0.4", loadBalancerBackendAddressPools := none }

/-- Single-NIC VM fixture of the claim C8 witness. -/
def vmC8 : VirtualMachine :=
  { name := "vm1", networkInterfaces := [{ id := "/sub/nics/nic1", primary := false }] }

/-- NIC fixture of the claim C8 witness. -/
def nicC8 : Interface :=
  { name := "nic1", ipConfigurations := [ipcC8] }

/-- World fixture of the claim C8 witness. -/
def wC8 : World :=
  { loadBalancers := []
    publicIPs := []
    securityGroups := []
    routeTables := []
    subnet := none
    routes := []
    vms := [("vm1", vmC8)]
    nics := [("nic1", nicC8)]
    subnetWrites := 0
    nicWrites := 0 }

/-- World fixture of the claim C10 witness: load balancer and public IP both
present. -/
def wC10 : World :=
  { loadBalancers := [("kube", lb7)]
    publicIPs := [("kube-asvcuid", pip7)]
    securityGroups := []
    routeTables := []
    subnet := none
    routes := []
    vms := []
    nics := []
    subnetWrites := 0
    nicWrites := 0 }

/-! Theorems. -/

theorem eqFold_refl (a : String) : eqFold a a = true := by
  simp [eqFold]

theorem lookupW_upsert {α : Type} (table : List (String × α)) (key : String) (value : α) :
    lookupW (upsert table key value) key = some value := by
  induction table with
  | nil => simp [upsert, lookupW, List.find?]
  | cons kv rest ih =>
    rcases hb : (kv.fst == key) with _ | _
    · simpa [upsert, hb, lookupW, List.find?] using ih
    · simp [upsert, hb, lookupW, List.find?]

theorem filter_filter_of_imp {α : Type} (l : List α) (own keep : α → Bool)
    (h : ∀ a ∈ l, own a = true → keep a = true) :
    (l.filter keep).filter own = l.filter own := by
  induction l with
  | nil => rfl
  | cons a l ih =>
    have ha := h a (by simp)
    have hrest : ∀ b ∈ l, own b = true → keep b = true := fun b hb => h b (by simp [hb])
    rcases ho : own a with _ | _
    · rcases hk : keep a with _ | _
      · simp [List.filter_cons, hk, ho, ih hrest]
      · simp [List.filter_cons, hk, ho, ih hrest]
    · have hk : keep a = true := ha ho
      simp [List.filter_cons, hk, ho, ih hrest]

theorem upperChars_append (a b : String) :
    upperChars (a ++ b) = upperChars a ++ upperChars b := by
  simp [upperChars, String.data_append]

theorem serviceOwnsRule_getRuleName (service : Service) (port : ServicePort) :
    serviceOwnsRule service (getRuleName service port) = true := by
  simp only [serviceOwnsRule, getRuleName]
  rw [List.isPrefixOf_iff_prefix]
  simp only [upperChars_append, List.append_assoc]
  exact List.prefix_append _ _

theorem serviceOwns_exclusive (a b : Service) (rule : String)
    (hab : ¬ (upperChars (getRulePrefix a) <+: upperChars (getRulePrefix b)))
    (hba : ¬ (upperChars (getRulePrefix b) <+: upperChars (getRulePrefix a)))
    (ha : serviceOwnsRule a rule = true) : serviceOwnsRule b rule = false := by
  rcases hb : serviceOwnsRule b rule with _ | _
  · rfl
  · exfalso
    rw [serviceOwnsRule, List.isPrefixOf_iff_prefix] at ha hb
    rcases List.prefix_or_prefix_of_prefix ha hb with h | h
    · exact hab h
    · exact hba h

theorem nextAvailablePriorityFrom_spec (rules : List SecurityRule) :
    ∀ (fuel : Nat) (smallest : Int), smallest + (fuel : Int) = loadBalancerMaximumPriority →
    match nextAvailablePriorityFrom rules fuel smallest with
    | (p, none) =>
      smallest ≤ p ∧ p < loadBalancerMaximumPriority
        ∧ (∀ r ∈ rules, r.priority.getD 0 ≠ p)
        ∧ (∀ q, smallest ≤ q → q < p → ∃ r ∈ rules, r.priority.getD 0 = q)
    | (_, some e) =>
      e = AzError.outOfPriorities
        ∧ (∀ q, smallest ≤ q → q < loadBalancerMaximumPriority →
            ∃ r ∈ rules, r.priority.getD 0 = q) := by
  intro fuel
  induction fuel with
  | zero =>
    intro smallest hinv
    simp only [nextAvailablePriorityFrom]
    refine ⟨by trivial, ?_⟩
    intro q hq hq2
    exfalso
    simp only [Nat.cast_zero] at hinv
    omega
  | succ fuel ih =>
    intro smallest hinv
    simp only [nextAvailablePriorityFrom]
    rcases hany : rules.any (fun rule => rule.priority.getD 0 == smallest) with _ | _
    · simp only [Bool.false_eq_true, if_false]
      refine ⟨le_refl _, ?_, ?_, ?_⟩
      · simp only [Nat.cast_add, Nat.cast_one] at hinv
        omega
      · intro r hr
        have hne := List.any_eq_false.mp hany r hr
        simpa using hne
      · intro q hq hq2
        omega
    · have htaken : ∃ r ∈ rules, r.priority.getD 0 = smallest := by
        rcases List.any_eq_true.mp hany with ⟨r, hr, hbeq⟩
        exact ⟨r, hr, by simpa using hbeq⟩
      have hinv2 : (smallest + 1) + (fuel : Int) = loadBalancerMaximumPriority := by
        simp only [Nat.cast_add, Nat.cast_one] at hinv
        omega
      have ih2 := ih (smallest + 1) hinv2
      simp only [if_true]
      rcases hres : nextAvailablePriorityFrom rules fuel (smallest + 1) with ⟨p, e⟩
      rw [hres] at ih2
      cases e with
      | none =>
        rcases ih2 with ⟨h1, h2, h3, h4⟩
        refine ⟨by omega, h2, h3, ?_⟩
        intro q hq hql
        rcases eq_or_lt_of_le hq with heq | hlt
        · exact heq ▸ htaken
        · exact h4 q (by omega) hql
      | some err =>
        rcases ih2 with ⟨h1, h2⟩
        refine ⟨h1, ?_⟩
        intro q hq hql
        rcases eq_or_lt_of_le hq with heq | hlt
        · exact heq ▸ htaken
        · exact h2 q (by omega) hql

/-- Claim C2: a nil error probes as existing; a DetailedError with status 404
probes as absent without error; a DetailedError with any other status is
passed back unchanged; but an error of any other dynamic type is NOT passed
back: the failed type assertion leaves the zero DetailedError (nil status,
empty message), and that zero value is what the function returns, losing the
original error, against its own documentation. -/
theorem claim_C2 :
    checkResourceExistsFromError none = (true, none)
    ∧ checkResourceExistsFromError (some (GoError.detailedError (some 404) "not found"))
        = (false, none)
    ∧ checkResourceExistsFromError (some (GoError.detailedError (some 500) "server"))
        = (false, some (GoError.detailedError (some 500) "server"))
    ∧ checkResourceExistsFromError (some (GoError.otherError "boom"))
        = (false, some (GoError.detailedError none ""))
    ∧ some (GoError.detailedError none "") ≠ some (GoError.otherError "boom") := by
  refine ⟨rfl, rfl, rfl, rfl, ?_⟩
  decide

/-- Claim C4: over rules whose priorities all lie in the half-open range from
500 to 4096, getNextAvailablePriority returns the lowest value of that range
assigned to no rule (in particular a value not present in the list), and
returns the out-of-priorities error exactly when every value of the range is
taken. -/
theorem claim_C4 (rules : List SecurityRule)
    (h : ∀ r ∈ rules, ∃ p, r.priority = some p ∧ 500 ≤ p ∧ p < 4096) :
    (∀ p, getNextAvailablePriority rules = (p, none) →
      500 ≤ p ∧ p < 4096 ∧ (∀ r ∈ rules, r.priority ≠ some p)
        ∧ (∀ q, 500 ≤ q → q < p → ∃ r ∈ rules, r.priority = some q))
    ∧ (getNextAvailablePriority rules = (-1, some AzError.outOfPriorities) ↔
        ∀ q, 500 ≤ q → q < 4096 → ∃ r ∈ rules, r.priority = some q) := by
  have hgd : ∀ q : Int, 500 ≤ q →
      (∃ r ∈ rules, r.priority.getD 0 = q) → ∃ r ∈ rules, r.priority = some q := by
    intro q hq ⟨r, hr, hrq⟩
    rcases h r hr with ⟨p, hp, hp1, hp2⟩
    rw [hp] at hrq
    simp only [Option.getD_some] at hrq
    exact ⟨r, hr, by rw [hp, hrq]⟩
  have hmain := nextAvailablePriorityFrom_spec rules
    (loadBalancerMaximumPriority - loadBalancerMinimumPriority).toNat
    loadBalancerMinimumPriority (by decide)
  constructor
  · intro p hp
    rw [getNextAvailablePriority] at hp
    rw [hp] at hmain
    simp only [loadBalancerMinimumPriority, loadBalancerMaximumPriority] at hmain
    rcases hmain with ⟨h1, h2, h3, h4⟩
    refine ⟨h1, h2, ?_, ?_⟩
    · intro r hr heq
      have := h3 r hr
      rw [heq] at this
      simp at this
    · intro q hq hqp
      exact hgd q hq (h4 q hq hqp)
  · constructor
    · intro hres
      rw [getNextAvailablePriority] at hres
      rw [hres] at hmain
      simp only [loadBalancerMinimumPriority, loadBalancerMaximumPriority] at hmain
      intro q hq hq2
      exact hgd q hq (hmain.2 q hq hq2)
    · intro hall
      rcases hres : getNextAvailablePriority rules with ⟨p, e⟩
      rw [getNextAvailablePriority] at hres
      rw [hres] at hmain
      cases e with
      | none =>
        exfalso
        simp only [loadBalancerMinimumPriority, loadBalancerMaximumPriority] at hmain
        rcases hmain with ⟨h1, h2, h3, h4⟩
        rcases hall p h1 h2 with ⟨r, hr, hrp⟩
        have := h3 r hr
        rw [hrp] at this
        simp at this
      | some err =>
        have herr : err = AzError.outOfPriorities := hmain.1
        have hneg : p = -1 := by
          have hloop : ∀ (fuel : Nat) (smallest : Int) (q : Int) (e2 : AzError),
              nextAvailablePriorityFrom rules fuel smallest = (q, some e2) → q = -1 := by
            intro fuel
            induction fuel with
            | zero =>
              intro smallest q e2 hstep
              simp only [nextAvailablePriorityFrom] at hstep
              exact (Prod.mk.injEq _ _ _ _ ▸ hstep).1.symm ▸ rfl
            | succ fuel ih =>
              intro smallest q e2 hstep
              simp only [nextAvailablePriorityFrom] at hstep
              rcases hany : rules.any (fun rule => rule.priority.getD 0 == smallest) with _ | _
              · rw [hany] at hstep
                simp at hstep
              · rw [hany] at hstep
                simp only [if_true] at hstep
                exact ih _ _ _ hstep
          exact hloop _ _ _ _ hres
        rw [hneg, herr]

/-- Witness for claim C4 at the empty rule list: the allocator returns the
minimum priority 500, which is free, and nothing below it is in range. -/
theorem claim_C4_witness :
    500 ≤ (500 : Int) ∧ (500 : Int) < 4096
      ∧ (∀ r ∈ ([] : List SecurityRule), r.priority ≠ some 500)
      ∧ (∀ q : Int, 500 ≤ q → q < 500 → ∃ r ∈ ([] : List SecurityRule), r.priority = some q) :=
  (claim_C4 [] (by simp)).1 500 (by rfl)

/-- Claim C7: the service with the single port (TCP, 80, 30080) reconciled
against the empty load balancer with its public IP present yields dirty true,
no error, exactly one frontend IP configuration referencing the public IP,
exactly one probe on port 30080 with protocol Tcp, interval 5 seconds and 2
probes, and exactly one rule from frontend port 80 to backend port 30080. -/
theorem claim_C7 :
    (reconcileLoadBalancer az7 lb7 (some pip7) "kube" svc7 []).2.2 = none
    ∧ (reconcileLoadBalancer az7 lb7 (some pip7) "kube" svc7 []).2.1 = true
    ∧ ((reconcileLoadBalancer az7 lb7 (some pip7) "kube" svc7 []).1.frontendIPConfigurations.getD
        []).map (fun config => config.publicIPAddressID) = [pip7.id]
    ∧ (reconcileLoadBalancer az7 lb7 (some pip7) "kube" svc7 []).1.probes.getD []
        = [{ name := "asvcuid-TCP-80-30080", id := "", protocol := "Tcp", port := 30080,
             intervalInSeconds := 5, numberOfProbes := 2 }]
    ∧ ((reconcileLoadBalancer az7 lb7 (some pip7) "kube" svc7 []).1.loadBalancingRules.getD
        []).map (fun rule => (rule.frontendPort, rule.backendPort)) = [(80, 30080)] := by
  decide

/-- Claim C9: EnsureLoadBalancerDeleted clears the port list of the Service
argument of the caller before reconciling, so the post-call view of that
argument carries no ports, whatever the world contained. -/
theorem claim_C9 (az : AzureCloud) (w : World) (clusterName : String) (service : Service) :
    (EnsureLoadBalancerDeleted az w clusterName service).2.1.ports = [] := rfl

/-- Counterexample to claim C3 as stated: a load balancer whose backend pool
count is 0, hence not 1, is reconciled without any error, and the returned
object differs from the input (the canonical pool was installed, dirty true),
so a pool count below one is repaired silently instead of failing. -/
theorem claim_C3_counterexample :
    (lbC3.backendAddressPools.getD []).length = 0
    ∧ (reconcileLoadBalancer az7 lbC3 (some pip7) "kube" svc7 []).2.2 = none
    ∧ (reconcileLoadBalancer az7 lbC3 (some pip7) "kube" svc7 []).2.1 = true
    ∧ (reconcileLoadBalancer az7 lbC3 (some pip7) "kube" svc7 []).1 ≠ lbC3 := by
  decide

/-- Claim C3 amended: for an observed load balancer carrying two or more
backend pools, or exactly one whose identifier differs case-insensitively
from the canonical backend pool identifier of the cluster, reconcile returns
the misconfiguration error and the unmodified input object; a pool count of
zero is instead repaired by installing the canonical pool with dirty true
(see the counterexample). -/
theorem claim_C3_amended (az : AzureCloud) (lb : LoadBalancer) (pip : Option PublicIPAddress)
    (clusterName : String) (service : Service) (hosts : List String)
    (pools : List BackendAddressPool)
    (hpools : lb.backendAddressPools = some pools)
    (hbad : 2 ≤ pools.length
      ∨ (pools.length = 1
        ∧ eqFold ((pools.headD { name := "", id := "" }).id)
            (getBackendPoolID az (getLoadBalancerName clusterName)
              (getBackendPoolName clusterName)) = false)) :
    reconcileLoadBalancer az lb pip clusterName service hosts
      = (lb, false, some AzError.misconfiguredLoadBalancer) := by
  have hpool : reconcileLBPool (getBackendPoolName clusterName)
      (getBackendPoolID az (getLoadBalancerName clusterName) (getBackendPoolName clusterName))
      pip.isSome lb = .error .misconfiguredLoadBalancer := by
    unfold reconcileLBPool
    rw [hpools]
    simp only [Option.isNone_some, Bool.and_false, Bool.false_or, Option.getD_some]
    rcases hbad with h2 | ⟨h1, hne⟩
    · have hz : (pools.length == 0) = false := beq_eq_false_iff_ne.mpr (by omega)
      have ho : (pools.length != 1) = true := by
        simp only [bne_iff_ne, ne_eq]
        omega
      simp [hz, ho]
    · have hz : (pools.length == 0) = false := beq_eq_false_iff_ne.mpr (by omega)
      have ho : (pools.length != 1) = false := by
        simp only [bne_eq_false_iff_eq]
        omega
      have hne2 : eqFold (pools.head?.getD { name := "", id := "" }).id
          (getBackendPoolID az (getLoadBalancerName clusterName)
            (getBackendPoolName clusterName)) = false := by
        rw [List.headD_eq_head?] at hne
        exact hne
      simp [hz, ho, hne2]
  simp only [reconcileLoadBalancer, hpool]

/-- Witness for the amended claim C3 at a concrete load balancer carrying two
backend pools. -/
theorem claim_C3_amended_witness :
    reconcileLoadBalancer az7 lbC3w (some pip7) "kube" svc7 []
      = (lbC3w, false, some AzError.misconfiguredLoadBalancer) :=
  claim_C3_amended az7 lbC3w (some pip7) "kube" svc7 []
    [{ name := "a", id := "A" }, { name := "b", id := "B" }] rfl (Or.inl (by decide))

theorem keep_of_imp (owns anyB : Bool) (h : owns = true → anyB = true) :
    (!(owns && !anyB)) = true := by
  cases owns with
  | false => simp
  | true => simp [h rfl]

theorem reconcileLBPool_fix (poolName poolID : String) (wantLb : Bool) (lb : LoadBalancer)
    (pool : BackendAddressPool) (hpool : lb.backendAddressPools = some [pool])
    (hid : eqFold pool.id poolID = true) :
    reconcileLBPool poolName poolID wantLb lb = .ok (lb, false) := by
  unfold reconcileLBPool
  rw [hpool]
  simp [hid]

theorem reconcileLBConfigs_fix (p : PublicIPAddress) (configName configID : String)
    (lb : LoadBalancer)
    (hfound : (lb.frontendIPConfigurations.getD []).any
      (fun config => eqFold config.id configID) = true) :
    reconcileLBConfigs (some p) configName configID lb = (lb, false) := by
  unfold reconcileLBConfigs
  simp [hfound]

theorem reconcileLBProbes_fix (az : AzureCloud) (lbName : String) (service : Service)
    (expectedProbes : List Probe) (lb : LoadBalancer)
    (h1 : ∀ ep ∈ lb.probes.getD [], probeKeep az lbName service expectedProbes ep = true)
    (h2 : ∀ xp ∈ expectedProbes, probeFound az lbName (lb.probes.getD []) xp = true) :
    reconcileLBProbes az lbName service expectedProbes lb = (lb, false) := by
  simp only [reconcileLBProbes]
  have hkept : (lb.probes.getD []).filter (probeKeep az lbName service expectedProbes)
      = lb.probes.getD [] := List.filter_eq_self.mpr h1
  have htoadd : expectedProbes.filter
      (fun xp => !(probeFound az lbName (lb.probes.getD []) xp)) = [] := by
    refine List.filter_eq_nil_iff.mpr ?_
    intro xp hx
    simp [h2 xp hx]
  rw [hkept, htoadd]
  simp

theorem reconcileLBRules_fix (az : AzureCloud) (lbName : String) (service : Service)
    (expectedRules : List LoadBalancingRule) (lb : LoadBalancer)
    (h1 : ∀ er ∈ lb.loadBalancingRules.getD [], ruleKeep az lbName service expectedRules er = true)
    (h2 : ∀ xr ∈ expectedRules, ruleFound az lbName (lb.loadBalancingRules.getD []) xr = true) :
    reconcileLBRules az lbName service expectedRules lb = (lb, false) := by
  simp only [reconcileLBRules]
  have hkept : (lb.loadBalancingRules.getD []).filter (ruleKeep az lbName service expectedRules)
      = lb.loadBalancingRules.getD [] := List.filter_eq_self.mpr h1
  have htoadd : expectedRules.filter
      (fun xr => !(ruleFound az lbName (lb.loadBalancingRules.getD []) xr)) = [] := by
    refine List.filter_eq_nil_iff.mpr ?_
    intro xr hx
    simp [h2 xr hx]
  rw [hkept, htoadd]
  simp

theorem addSecurityRules_found_all (az : AzureCloud) (originalRules : List SecurityRule) :
    ∀ (l updated : List SecurityRule) (dirty : Bool),
    (∀ xr ∈ l, sgRuleFound az originalRules xr = true) →
    addSecurityRules az originalRules l updated dirty = .ok (updated, dirty) := by
  intro l
  induction l with
  | nil =>
    intro updated dirty _
    rfl
  | cons xr rest ih =>
    intro updated dirty hall
    have hx := hall xr (by simp)
    simp only [addSecurityRules, hx, if_true]
    exact ih updated dirty (fun y hy => hall y (by simp [hy]))

/-- Claim C1: a load balancer and a security group that already match the
desired state computed from the service are fixpoints of their reconcilers:
both reconcile calls return dirty false, no error, and the input object
unchanged, so a second reconcile call on the output of a first call with the
same service, cluster name, public IP and hosts is a no-op. Matching the
desired state means: the pool list is exactly the canonical pool (by
case-insensitive identifier), some frontend configuration carries the
canonical frontend identifier, every owned probe and rule matches an expected
identifier and every expected probe and rule identifier is present, and the
same for the security rules of the group. -/
theorem claim_C1 (az : AzureCloud) (lb : LoadBalancer) (sg : SecurityGroup)
    (p : PublicIPAddress) (clusterName : String) (service : Service) (hosts : List String)
    (pool : BackendAddressPool) (eps : List Probe) (ers : List LoadBalancingRule)
    (xrs : List SecurityRule)
    (hpool : lb.backendAddressPools = some [pool])
    (hpoolid : eqFold pool.id
      (getBackendPoolID az (getLoadBalancerName clusterName)
        (getBackendPoolName clusterName)) = true)
    (hfe : (lb.frontendIPConfigurations.getD []).any
      (fun config => eqFold config.id
        (getFrontendIPConfigID az (getLoadBalancerName clusterName)
          (getFrontendIPConfigName service))) = true)
    (hexp : expectedProbesAndRules az (getLoadBalancerName clusterName)
      (getFrontendIPConfigID az (getLoadBalancerName clusterName)
        (getFrontendIPConfigName service))
      (getBackendPoolID az (getLoadBalancerName clusterName) (getBackendPoolName clusterName))
      service service.ports = .ok (eps, ers))
    (hp1 : ∀ ep ∈ lb.probes.getD [], serviceOwnsRule service ep.name = true →
      (eps.any (fun xp => eqFold ep.id
        (getLoadBalancerProbeID az (getLoadBalancerName clusterName) xp.name))) = true)
    (hp2 : ∀ xp ∈ eps, ((lb.probes.getD []).any (fun ep => eqFold ep.id
      (getLoadBalancerProbeID az (getLoadBalancerName clusterName) xp.name))) = true)
    (hr1 : ∀ er ∈ lb.loadBalancingRules.getD [], serviceOwnsRule service er.name = true →
      (ers.any (fun xr => eqFold er.id
        (getLoadBalancerRuleID az (getLoadBalancerName clusterName) xr.name))) = true)
    (hr2 : ∀ xr ∈ ers, ((lb.loadBalancingRules.getD []).any (fun er => eqFold er.id
      (getLoadBalancerRuleID az (getLoadBalancerName clusterName) xr.name))) = true)
    (hsgexp : expectedSecurityRules az service service.ports = .ok xrs)
    (hs1 : ∀ er ∈ sg.securityRules.getD [], serviceOwnsRule service er.name = true →
      (xrs.any (fun xr => eqFold er.id (getSecurityRuleID az xr.name))) = true)
    (hs2 : ∀ xr ∈ xrs, ((sg.securityRules.getD []).any
      (fun er => eqFold er.id (getSecurityRuleID az xr.name))) = true) :
    reconcileLoadBalancer az lb (some p) clusterName service hosts = (lb, false, none)
    ∧ reconcileSecurityGroup az sg clusterName service = (sg, false, none) := by
  constructor
  · have hpoolfix := reconcileLBPool_fix (getBackendPoolName clusterName)
      (getBackendPoolID az (getLoadBalancerName clusterName) (getBackendPoolName clusterName))
      (some p).isSome lb pool hpool hpoolid
    have hcfgfix := reconcileLBConfigs_fix p (getFrontendIPConfigName service)
      (getFrontendIPConfigID az (getLoadBalancerName clusterName)
        (getFrontendIPConfigName service)) lb hfe
    have hprobesfix := reconcileLBProbes_fix az (getLoadBalancerName clusterName) service eps lb
      (fun ep hep => keep_of_imp _ _ (hp1 ep hep)) hp2
    have hrulesfix := reconcileLBRules_fix az (getLoadBalancerName clusterName) service ers lb
      (fun er her => keep_of_imp _ _ (hr1 er her)) hr2
    simp only [reconcileLoadBalancer, hpoolfix, hcfgfix, hexp, hprobesfix, hrulesfix]
    simp
  · have hkept : (sg.securityRules.getD []).filter (sgRuleKeep az service xrs)
        = sg.securityRules.getD [] :=
      List.filter_eq_self.mpr (fun er her => keep_of_imp _ _ (hs1 er her))
    have hadd := addSecurityRules_found_all az (sg.securityRules.getD []) xrs
      (sg.securityRules.getD []) false hs2
    simp only [reconcileSecurityGroup, hsgexp, hkept, bne_self_eq_false, hadd]
    simp

/-- Witness for claim C1: the concrete already-matching load balancer and
security group are fixpoints with dirty false and no error. -/
theorem claim_C1_witness :
    reconcileLoadBalancer az1 lb1 (some pip1) "c" svc1 [] = (lb1, false, none)
    ∧ reconcileSecurityGroup az1 sg1 "c" svc1 = (sg1, false, none) :=
  claim_C1 az1 lb1 sg1 pip1 "c" svc1 [] pool1 eps1 ers1 xrs1
    (by rfl) (by decide) (by decide) (by rfl) (by decide) (by decide) (by decide)
    (by decide) (by rfl) (by decide) (by decide)

theorem reconcileLBPool_ok_fields (poolName poolID : String) (wantLb : Bool)
    (lb lb1 : LoadBalancer) (d : Bool)
    (h : reconcileLBPool poolName poolID wantLb lb = .ok (lb1, d)) :
    lb1.probes = lb.probes ∧ lb1.loadBalancingRules = lb.loadBalancingRules
      ∧ lb1.frontendIPConfigurations = lb.frontendIPConfigurations := by
  simp only [reconcileLBPool] at h
  split at h
  · simp only [Except.ok.injEq, Prod.mk.injEq] at h
    rw [← h.1]
    exact ⟨rfl, rfl, rfl⟩
  · split at h
    · simp at h
    · simp only [Except.ok.injEq, Prod.mk.injEq] at h
      rw [← h.1]
      exact ⟨rfl, rfl, rfl⟩

theorem reconcileLBConfigs_fields (pip : Option PublicIPAddress) (configName configID : String)
    (lb : LoadBalancer) :
    (reconcileLBConfigs pip configName configID lb).1.probes = lb.probes
      ∧ (reconcileLBConfigs pip configName configID lb).1.loadBalancingRules
          = lb.loadBalancingRules := by
  constructor
  · simp only [reconcileLBConfigs]
    split <;> split <;> rfl
  · simp only [reconcileLBConfigs]
    split <;> split <;> rfl

theorem reconcileLBProbes_rules_field (az : AzureCloud) (lbName : String) (service : Service)
    (expectedProbes : List Probe) (lb : LoadBalancer) :
    (reconcileLBProbes az lbName service expectedProbes lb).1.loadBalancingRules
      = lb.loadBalancingRules := by
  simp only [reconcileLBProbes]
  split <;> rfl

theorem reconcileLBRules_probes_field (az : AzureCloud) (lbName : String) (service : Service)
    (expectedRules : List LoadBalancingRule) (lb : LoadBalancer) :
    (reconcileLBRules az lbName service expectedRules lb).1.probes = lb.probes := by
  simp only [reconcileLBRules]
  split <;> rfl

theorem expectedProbesAndRules_names (az : AzureCloud) (lbName configID poolID : String)
    (service : Service) :
    ∀ (ports : List ServicePort) (eps : List Probe) (ers : List LoadBalancingRule),
    expectedProbesAndRules az lbName configID poolID service ports = .ok (eps, ers) →
    (∀ p ∈ eps, ∃ port, p.name = getRuleName service port)
      ∧ (∀ r ∈ ers, ∃ port, r.name = getRuleName service port) := by
  intro ports
  induction ports with
  | nil =>
    intro eps ers h
    simp only [expectedProbesAndRules, Except.ok.injEq, Prod.mk.injEq] at h
    rw [← h.1, ← h.2]
    exact ⟨by simp, by simp⟩
  | cons port rest ih =>
    intro eps ers h
    simp only [expectedProbesAndRules] at h
    cases hp : getProtosFromKubeProto port.protocol with
    | error e => rw [hp] at h; simp at h
    | ok protos =>
      rw [hp] at h
      cases hr : expectedProbesAndRules az lbName configID poolID service rest with
      | error e => rw [hr] at h; simp at h
      | ok pr =>
        obtain ⟨prP, prR⟩ := pr
        rw [hr] at h
        simp only [Except.ok.injEq, Prod.mk.injEq] at h
        obtain ⟨h1, h2⟩ := h
        rcases ih prP prR hr with ⟨ih1, ih2⟩
        constructor
        · intro p hp2
          rw [← h1] at hp2
          rcases List.mem_cons.mp hp2 with heq | hmem
          · exact ⟨port, by rw [heq]⟩
          · exact ih1 p hmem
        · intro r hr2
          rw [← h2] at hr2
          rcases List.mem_cons.mp hr2 with heq | hmem
          · exact ⟨port, by rw [heq]⟩
          · exact ih2 r hmem

theorem expectedSecurityRules_names (az : AzureCloud) (service : Service) :
    ∀ (ports : List ServicePort) (xrs : List SecurityRule),
    expectedSecurityRules az service ports = .ok xrs →
    ∀ r ∈ xrs, ∃ port, r.name = getRuleName service port := by
  intro ports
  induction ports with
  | nil =>
    intro xrs h
    simp only [expectedSecurityRules, Except.ok.injEq] at h
    rw [← h]
    simp
  | cons port rest ih =>
    intro xrs h
    simp only [expectedSecurityRules] at h
    cases hp : getProtosFromKubeProto port.protocol with
    | error e => rw [hp] at h; simp at h
    | ok protos =>
      rw [hp] at h
      cases hr : expectedSecurityRules az service rest with
      | error e => rw [hr] at h; simp at h
      | ok rules =>
        rw [hr] at h
        simp only [Except.ok.injEq] at h
        intro r hr2
        rw [← h] at hr2
        rcases List.mem_cons.mp hr2 with heq | hmem
        · exact ⟨port, by rw [heq]⟩
        · exact ih rules hr r hmem

theorem reconcileLBProbes_filter (az : AzureCloud) (lbName : String) (service : Service)
    (q : Probe → Bool) (expectedProbes : List Probe) (lb : LoadBalancer)
    (hkeep : ∀ ep ∈ lb.probes.getD [], q ep = true →
      probeKeep az lbName service expectedProbes ep = true)
    (hadd : ∀ xp ∈ expectedProbes, q xp = false) :
    ((reconcileLBProbes az lbName service expectedProbes lb).1.probes.getD []).filter q
      = (lb.probes.getD []).filter q := by
  simp only [reconcileLBProbes]
  split
  · simp only [Option.getD_some, List.filter_append]
    rw [filter_filter_of_imp (lb.probes.getD []) q
      (probeKeep az lbName service expectedProbes) hkeep]
    have hnil : (expectedProbes.filter
        (fun xp => !(probeFound az lbName (lb.probes.getD []) xp))).filter q = [] := by
      refine List.filter_eq_nil_iff.mpr ?_
      intro xp hx
      have := hadd xp (List.mem_of_mem_filter hx)
      simp [this]
    rw [hnil, List.append_nil]
  · rfl

theorem reconcileLBRules_filter (az : AzureCloud) (lbName : String) (service : Service)
    (q : LoadBalancingRule → Bool) (expectedRules : List LoadBalancingRule) (lb : LoadBalancer)
    (hkeep : ∀ er ∈ lb.loadBalancingRules.getD [], q er = true →
      ruleKeep az lbName service expectedRules er = true)
    (hadd : ∀ xr ∈ expectedRules, q xr = false) :
    ((reconcileLBRules az lbName service expectedRules lb).1.loadBalancingRules.getD []).filter q
      = (lb.loadBalancingRules.getD []).filter q := by
  simp only [reconcileLBRules]
  split
  · simp only [Option.getD_some, List.filter_append]
    rw [filter_filter_of_imp (lb.loadBalancingRules.getD []) q
      (ruleKeep az lbName service expectedRules) hkeep]
    have hnil : (expectedRules.filter
        (fun xr => !(ruleFound az lbName (lb.loadBalancingRules.getD []) xr))).filter q = [] := by
      refine List.filter_eq_nil_iff.mpr ?_
      intro xr hx
      have := hadd xr (List.mem_of_mem_filter hx)
      simp [this]
    rw [hnil, List.append_nil]
  · rfl

theorem addSecurityRules_filter (az : AzureCloud) (originalRules : List SecurityRule)
    (q : SecurityRule → Bool) :
    ∀ (l updated : List SecurityRule) (dirty : Bool) (res : List SecurityRule × Bool),
    (∀ xr ∈ l, ∀ pr : Option Int, q { xr with priority := pr } = false) →
    addSecurityRules az originalRules l updated dirty = .ok res →
    res.1.filter q = updated.filter q := by
  intro l
  induction l with
  | nil =>
    intro updated dirty res _ h
    simp only [addSecurityRules, Except.ok.injEq] at h
    rw [← h]
  | cons xr rest ih =>
    intro updated dirty res hq h
    simp only [addSecurityRules] at h
    rcases hf : sgRuleFound az originalRules xr with _ | _
    · rw [hf] at h
      simp only [Bool.false_eq_true, if_false] at h
      rcases hgp : getNextAvailablePriority updated with ⟨p, e⟩
      rw [hgp] at h
      cases e with
      | some err => simp at h
      | none =>
        have hres := ih (updated ++ [{ xr with priority := some p }]) true res
          (fun y hy pr => hq y (by simp [hy]) pr) h
        rw [hres, List.filter_append]
        have hone : [{ xr with priority := some p }].filter q = [] := by
          have := hq xr (by simp) (some p)
          simp [List.filter_cons, this]
        rw [hone, List.append_nil]
    · rw [hf] at h
      simp only [if_true] at h
      exact ih updated dirty res (fun y hy pr => hq y (by simp [hy]) pr) h

/-- Claim C5: for two services a and b whose deterministic rule prefixes do
not overlap (neither is a case-insensitive prefix of the other, hence neither
owns any name the other owns or generates), reconciling for service a, with
any desired state including the empty port list of the deletion path, never
removes or modifies any probe or rule owned by b: the sublist of entries
owned by b, in the load balancer and in the security group, is exactly
preserved. The two disjunctive hypotheses keep the statement inside the
region where the Go code does not panic on nil list pointers. -/
theorem claim_C5 (az : AzureCloud) (lb : LoadBalancer) (sg : SecurityGroup)
    (pip : Option PublicIPAddress) (clusterName : String) (a b : Service) (hosts : List String)
    (hab : ¬ (upperChars (getRulePrefix a) <+: upperChars (getRulePrefix b)))
    (hba : ¬ (upperChars (getRulePrefix b) <+: upperChars (getRulePrefix a)))
    (hlb : lb.backendAddressPools.isSome = true ∨ pip.isSome = true)
    (hsg : sg.securityRules.isSome = true ∨ a.ports = []) :
    ((reconcileLoadBalancer az lb pip clusterName a hosts).1.probes.getD []).filter
        (fun p => serviceOwnsRule b p.name)
      = (lb.probes.getD []).filter (fun p => serviceOwnsRule b p.name)
    ∧ ((reconcileLoadBalancer az lb pip clusterName a hosts).1.loadBalancingRules.getD
        []).filter (fun r => serviceOwnsRule b r.name)
      = (lb.loadBalancingRules.getD []).filter (fun r => serviceOwnsRule b r.name)
    ∧ ((reconcileSecurityGroup az sg clusterName a).1.securityRules.getD []).filter
        (fun r => serviceOwnsRule b r.name)
      = (sg.securityRules.getD []).filter (fun r => serviceOwnsRule b r.name) := by
  have hexcl : ∀ n, serviceOwnsRule b n = true → serviceOwnsRule a n = false :=
    fun n hn => serviceOwns_exclusive b a n hba hab hn
  have hBnot : ∀ port, serviceOwnsRule b (getRuleName a port) = false :=
    fun port => serviceOwns_exclusive a b _ hab hba (serviceOwnsRule_getRuleName a port)
  refine ⟨?_, ?_, ?_⟩
  case refine_3 =>
    cases hsgexp : expectedSecurityRules az a a.ports with
    | error e =>
      simp only [reconcileSecurityGroup, hsgexp]
    | ok xrs =>
      have hnames := expectedSecurityRules_names az a a.ports xrs hsgexp
      have hqxr : ∀ xr ∈ xrs, ∀ pr : Option Int,
          serviceOwnsRule b ({ xr with priority := pr } : SecurityRule).name = false := by
        intro xr hx pr
        rcases hnames xr hx with ⟨port, hname⟩
        show serviceOwnsRule b xr.name = false
        rw [hname]
        exact hBnot port
      have hkeepimp : ∀ er ∈ sg.securityRules.getD [],
          serviceOwnsRule b er.name = true → sgRuleKeep az a xrs er = true := by
        intro er _ hq
        unfold sgRuleKeep
        rw [hexcl er.name hq]
        simp
      cases haddres : addSecurityRules az (sg.securityRules.getD []) xrs
          ((sg.securityRules.getD []).filter (sgRuleKeep az a xrs))
          (((sg.securityRules.getD []).filter (sgRuleKeep az a xrs)).length
            != (sg.securityRules.getD []).length) with
      | error e =>
        simp only [reconcileSecurityGroup, hsgexp, haddres]
      | ok res =>
        simp only [reconcileSecurityGroup, hsgexp, haddres]
        split
        · simp only [Option.getD_some]
          rw [addSecurityRules_filter az (sg.securityRules.getD [])
            (fun r => serviceOwnsRule b r.name) xrs
            ((sg.securityRules.getD []).filter (sgRuleKeep az a xrs))
            (((sg.securityRules.getD []).filter (sgRuleKeep az a xrs)).length
              != (sg.securityRules.getD []).length) res hqxr haddres]
          exact filter_filter_of_imp (sg.securityRules.getD [])
            (fun r => serviceOwnsRule b r.name) (sgRuleKeep az a xrs) hkeepimp
        · rfl
  all_goals
    cases hpool : reconcileLBPool (getBackendPoolName clusterName)
        (getBackendPoolID az (getLoadBalancerName clusterName) (getBackendPoolName clusterName))
        pip.isSome lb with
    | error e =>
      simp only [reconcileLoadBalancer, hpool]
    | ok poolResult =>
      obtain ⟨lb1, d1⟩ := poolResult
      have hf1 := reconcileLBPool_ok_fields _ _ _ lb lb1 d1 hpool
      have hf2 := reconcileLBConfigs_fields pip (getFrontendIPConfigName a)
        (getFrontendIPConfigID az (getLoadBalancerName clusterName)
          (getFrontendIPConfigName a)) lb1
      have hprobes2 : (reconcileLBConfigs pip (getFrontendIPConfigName a)
          (getFrontendIPConfigID az (getLoadBalancerName clusterName)
            (getFrontendIPConfigName a)) lb1).1.probes = lb.probes := by
        rw [hf2.1, hf1.1]
      have hrules2 : (reconcileLBConfigs pip (getFrontendIPConfigName a)
          (getFrontendIPConfigID az (getLoadBalancerName clusterName)
            (getFrontendIPConfigName a)) lb1).1.loadBalancingRules
            = lb.loadBalancingRules := by
        rw [hf2.2, hf1.2.1]
      cases hexp : expectedProbesAndRules az (getLoadBalancerName clusterName)
          (getFrontendIPConfigID az (getLoadBalancerName clusterName)
            (getFrontendIPConfigName a))
          (getBackendPoolID az (getLoadBalancerName clusterName)
            (getBackendPoolName clusterName)) a a.ports with
      | error e =>
        simp only [reconcileLoadBalancer, hpool, hexp]
        first
        | rw [hprobes2]
        | rw [hrules2]
      | ok expected =>
        obtain ⟨eps, ers⟩ := expected
        have hnames := expectedProbesAndRules_names az (getLoadBalancerName clusterName)
          (getFrontendIPConfigID az (getLoadBalancerName clusterName)
            (getFrontendIPConfigName a))
          (getBackendPoolID az (getLoadBalancerName clusterName)
            (getBackendPoolName clusterName)) a a.ports eps ers hexp
        have haddP : ∀ xp ∈ eps, serviceOwnsRule b xp.name = false := by
          intro xp hx
          rcases hnames.1 xp hx with ⟨port, hname⟩
          rw [hname]
          exact hBnot port
        have haddR : ∀ xr ∈ ers, serviceOwnsRule b xr.name = false := by
          intro xr hx
          rcases hnames.2 xr hx with ⟨port, hname⟩
          rw [hname]
          exact hBnot port
        have hkeepP : ∀ (l : List Probe), ∀ ep ∈ l, serviceOwnsRule b ep.name = true →
            probeKeep az (getLoadBalancerName clusterName) a eps ep = true := by
          intro l ep _ hq
          unfold probeKeep
          rw [hexcl ep.name hq]
          simp
        have hkeepR : ∀ (l : List LoadBalancingRule), ∀ er ∈ l,
            serviceOwnsRule b er.name = true →
            ruleKeep az (getLoadBalancerName clusterName) a ers er = true := by
          intro l er _ hq
          unfold ruleKeep
          rw [hexcl er.name hq]
          simp
        simp only [reconcileLoadBalancer, hpool, hexp]
        first
        | (rw [reconcileLBRules_probes_field,
            reconcileLBProbes_filter az (getLoadBalancerName clusterName) a
              (fun p => serviceOwnsRule b p.name) eps _ (hkeepP _) haddP,
            hprobes2])
        | (rw [reconcileLBRules_filter az (getLoadBalancerName clusterName) a
              (fun r => serviceOwnsRule b r.name) ers _ (hkeepR _) haddR,
            reconcileLBProbes_rules_field, hrules2])

/-- Witness for claim C5 at concrete services with disjoint prefixes: the
entries owned by b survive reconciling for a exactly. -/
theorem claim_C5_witness :
    ((reconcileLoadBalancer az7 lbC5 (some pip7) "c" svcA []).1.probes.getD []).filter
        (fun p => serviceOwnsRule svcB p.name)
      = (lbC5.probes.getD []).filter (fun p => serviceOwnsRule svcB p.name)
    ∧ ((reconcileLoadBalancer az7 lbC5 (some pip7) "c" svcA []).1.loadBalancingRules.getD
        []).filter (fun r => serviceOwnsRule svcB r.name)
      = (lbC5.loadBalancingRules.getD []).filter (fun r => serviceOwnsRule svcB r.name)
    ∧ ((reconcileSecurityGroup az7 sgC5 "c" svcA).1.securityRules.getD []).filter
        (fun r => serviceOwnsRule svcB r.name)
      = (sgC5.securityRules.getD []).filter (fun r => serviceOwnsRule svcB r.name) :=
  claim_C5 az7 lbC5 sgC5 (some pip7) "c" svcA svcB []
    (by decide) (by decide) (Or.inl (by decide)) (Or.inl (by decide))

/-- Claim C6: CreateRoute and the cluster subnet. With the subnet present and
every stored route table carrying its resource-manager identifier: a subnet
bound to a table other than the cluster one makes CreateRoute fail with the
conflict error, not touching the subnet; an unbound subnet is bound to the
cluster table, one subnet write; a subnet already bound to the cluster table
is left alone, no subnet write, which is the idempotence on retry. -/
theorem claim_C6 (az : AzureCloud) (w : World) (clusterName nameHint : String)
    (kubeRoute : KubeRoute) (s : Subnet)
    (hrt : ∀ rt, lookupW w.routeTables (getRouteTableName clusterName) = some rt →
      rt.id = getRouteTableID az (getRouteTableName clusterName))
    (hsub : w.subnet = some s) :
    (∀ tid, s.routeTableID = some tid →
      tid ≠ getRouteTableID az (getRouteTableName clusterName) →
      (CreateRoute az w clusterName nameHint kubeRoute).2 = some AzError.subnetRouteTableConflict
        ∧ (CreateRoute az w clusterName nameHint kubeRoute).1.subnet = w.subnet
        ∧ (CreateRoute az w clusterName nameHint kubeRoute).1.subnetWrites = w.subnetWrites)
    ∧ (s.routeTableID = none →
      (CreateRoute az w clusterName nameHint kubeRoute).1.subnet
          = some { s with routeTableID := some (getRouteTableID az (getRouteTableName clusterName)) }
        ∧ (CreateRoute az w clusterName nameHint kubeRoute).1.subnetWrites
            = w.subnetWrites + 1)
    ∧ (s.routeTableID = some (getRouteTableID az (getRouteTableName clusterName)) →
      (CreateRoute az w clusterName nameHint kubeRoute).1.subnet = w.subnet
        ∧ (CreateRoute az w clusterName nameHint kubeRoute).1.subnetWrites
            = w.subnetWrites) := by
  have hfin1 : ∀ w2 : World, (createRouteFinish az w2 kubeRoute).1.subnet = w2.subnet := by
    intro w2
    cases h : getIPForMachine az w2 kubeRoute.targetInstance with
    | error e => simp [createRouteFinish, h]
    | ok t => simp [createRouteFinish, h]
  have hfin2 : ∀ w2 : World,
      (createRouteFinish az w2 kubeRoute).1.subnetWrites = w2.subnetWrites := by
    intro w2
    cases h : getIPForMachine az w2 kubeRoute.targetInstance with
    | error e => simp [createRouteFinish, h]
    | ok t => simp [createRouteFinish, h]
  refine ⟨?_, ?_, ?_⟩
  · intro tid htid hne
    cases hlook : lookupW w.routeTables (getRouteTableName clusterName) with
    | some rt =>
      have hid := hrt rt hlook
      have hbne : (tid == rt.id) = false := by
        rw [hid]
        exact beq_eq_false_iff_ne.mpr hne
      simp [CreateRoute, hlook, hsub, htid, hbne]
    | none =>
      have hbne : (tid == getRouteTableID az (getRouteTableName clusterName)) = false :=
        beq_eq_false_iff_ne.mpr hne
      simp [CreateRoute, hlook, hsub, htid, hbne]
  · intro htid
    cases hlook : lookupW w.routeTables (getRouteTableName clusterName) with
    | some rt =>
      have hid := hrt rt hlook
      simp [CreateRoute, hlook, hsub, htid, hfin1, hfin2, hid]
    | none =>
      simp [CreateRoute, hlook, hsub, htid, hfin1, hfin2]
  · intro htid
    cases hlook : lookupW w.routeTables (getRouteTableName clusterName) with
    | some rt =>
      have hid := hrt rt hlook
      simp [CreateRoute, hlook, hsub, htid, hfin1, hfin2, hid]
    | none =>
      simp [CreateRoute, hlook, hsub, htid, hfin1, hfin2]

/-- Claim C8: a virtual machine with more than one NIC reference none of which
is flagged primary makes getPrimaryNicID fail, never guessing an index; a NIC
with other than exactly one IP configuration makes getPrimaryIPConfig fail;
and ensureHostInPool appends the backend pool identifier to the membership
list of the primary IP configuration only when it is absent, issuing a remote
NIC update only in that case, so adding twice is a no-op. -/
theorem claim_C8 :
    (∀ machine : VirtualMachine, 1 < machine.networkInterfaces.length →
      (∀ ref ∈ machine.networkInterfaces, ref.primary = false) →
      getPrimaryNicID machine = .error .noPrimaryNic)
    ∧ (∀ nic : Interface, nic.ipConfigurations.length ≠ 1 →
      getPrimaryIPConfig nic = .error .ambiguousIPConfig)
    ∧ (∀ (az : AzureCloud) (w : World) (serviceName machineName backendPoolID : String)
        (machine : VirtualMachine) (nicID : String) (nic : Interface) (ipc : IPConfiguration),
      lookupW w.vms machineName = some machine →
      getPrimaryNicID machine = .ok nicID →
      lookupW w.nics (getLastSegment nicID) = some nic →
      nic.name = getLastSegment nicID →
      nic.ipConfigurations = [ipc] →
      (((ipc.loadBalancerBackendAddressPools.getD []).any
          (fun pool => eqFold backendPoolID pool.id)) = true →
        ensureHostInPool az w serviceName machineName backendPoolID = (w, none))
      ∧ (((ipc.loadBalancerBackendAddressPools.getD []).any
          (fun pool => eqFold backendPoolID pool.id)) = false →
        (ensureHostInPool az w serviceName machineName backendPoolID).2 = none
        ∧ (ensureHostInPool az w serviceName machineName backendPoolID).1.nicWrites
            = w.nicWrites + 1
        ∧ lookupW (ensureHostInPool az w serviceName machineName backendPoolID).1.nics
            (getLastSegment nicID)
          = some { nic with ipConfigurations := [{ ipc with loadBalancerBackendAddressPools := some ((ipc.loadBalancerBackendAddressPools.getD []) ++ [{ name := "", id := backendPoolID }]) }] }
        ∧ ensureHostInPool az (ensureHostInPool az w serviceName machineName backendPoolID).1
            serviceName machineName backendPoolID
          = ((ensureHostInPool az w serviceName machineName backendPoolID).1, none))) := by
  refine ⟨?_, ?_, ?_⟩
  · intro machine hlen hall
    simp only [getPrimaryNicID]
    have h1 : (machine.networkInterfaces.length == 1) = false :=
      beq_eq_false_iff_ne.mpr (by omega)
    have h2 : machine.networkInterfaces.find? (fun ref => ref.primary) = none :=
      List.find?_eq_none.mpr (fun x hx => by simp [hall x hx])
    simp [h1, h2]
  · intro nic hlen
    rcases hc : nic.ipConfigurations with _ | ⟨c, _ | ⟨d, rest⟩⟩
    · simp [getPrimaryIPConfig, hc]
    · exfalso
      rw [hc] at hlen
      simp at hlen
    · simp [getPrimaryIPConfig, hc]
  · intro az w serviceName machineName backendPoolID machine nicID nic ipc
      hvm hnic hlook hname hipc
    have hpip : getPrimaryIPConfig nic = .ok ipc := by
      simp [getPrimaryIPConfig, hipc]
    constructor
    · intro hmem
      simp [ensureHostInPool, hvm, hnic, hlook, hpip, hmem]
    · intro habs
      have hres : ensureHostInPool az w serviceName machineName backendPoolID
          = ({ w with
                nics := upsert w.nics nic.name
                  { nic with ipConfigurations := [{ ipc with loadBalancerBackendAddressPools := some ((ipc.loadBalancerBackendAddressPools.getD []) ++ [{ name := "", id := backendPoolID }]) }] },
                nicWrites := w.nicWrites + 1 },
             none) := by
        simp [ensureHostInPool, hvm, hnic, hlook, hpip, habs]
      rw [hres]
      have hlook2 : lookupW (upsert w.nics nic.name
          { nic with ipConfigurations := [{ ipc with loadBalancerBackendAddressPools := some ((ipc.loadBalancerBackendAddressPools.getD []) ++ [{ name := "", id := backendPoolID }]) }] })
          (getLastSegment nicID)
          = some { nic with ipConfigurations := [{ ipc with loadBalancerBackendAddressPools := some ((ipc.loadBalancerBackendAddressPools.getD []) ++ [{ name := "", id := backendPoolID }]) }] } := by
        rw [← hname]
        exact lookupW_upsert _ _ _
      refine ⟨rfl, rfl, hlook2, ?_⟩
      have hpip2 : getPrimaryIPConfig { nic with ipConfigurations := [{ ipc with loadBalancerBackendAddressPools := some ((ipc.loadBalancerBackendAddressPools.getD []) ++ [{ name := "", id := backendPoolID }]) }] }
          = .ok { ipc with loadBalancerBackendAddressPools := some ((ipc.loadBalancerBackendAddressPools.getD []) ++ [{ name := "", id := backendPoolID }]) } := by
        simp [getPrimaryIPConfig]
      have hmem2 : (((ipc.loadBalancerBackendAddressPools.getD [])
            ++ [({ name := "", id := backendPoolID } : BackendAddressPool)]).any
          (fun pool => eqFold backendPoolID pool.id)) = true := by
        simp [List.any_append, eqFold_refl]
      simp [ensureHostInPool, hvm, hnic, hlook2, hpip2, hmem2]

/-- Claim C10: GetLoadBalancer reports exists true only when both the cluster
load balancer and the public IP of the service exist remotely; a load balancer
present with the public IP absent is exists false with no error; and when
exists is true the reported ingress IP is the address of the public IP. -/
theorem claim_C10 (az : AzureCloud) (w : World) (clusterName : String) (service : Service) :
    ((GetLoadBalancer az w clusterName service).2.1 = true →
      (lookupW w.loadBalancers (getLoadBalancerName clusterName)).isSome = true
      ∧ (lookupW w.publicIPs (getPublicIPName clusterName service)).isSome = true)
    ∧ (∀ lb, lookupW w.loadBalancers (getLoadBalancerName clusterName) = some lb →
      lookupW w.publicIPs (getPublicIPName clusterName service) = none →
      GetLoadBalancer az w clusterName service = (none, false, none))
    ∧ (∀ pip, (GetLoadBalancer az w clusterName service).2.1 = true →
      lookupW w.publicIPs (getPublicIPName clusterName service) = some pip →
      (GetLoadBalancer az w clusterName service).1
        = some { ingress := [{ ip := pip.ipAddress }] }) := by
  refine ⟨?_, ?_, ?_⟩
  · intro hex
    cases hlb : lookupW w.loadBalancers (getLoadBalancerName clusterName) with
    | none => simp [GetLoadBalancer, hlb] at hex
    | some lb =>
      cases hpip : lookupW w.publicIPs (getPublicIPName clusterName service) with
      | none => simp [GetLoadBalancer, hlb, hpip] at hex
      | some pip => simp [hlb, hpip]
  · intro lb hlb hpip
    simp [GetLoadBalancer, hlb, hpip]
  · intro pip hex hpip
    cases hlb : lookupW w.loadBalancers (getLoadBalancerName clusterName) with
    | none => simp [GetLoadBalancer, hlb] at hex
    | some lb => simp [GetLoadBalancer, hlb, hpip]

/-- Witness for claim C6: on the concrete world whose subnet is bound to a
foreign route table, CreateRoute fails with the conflict error and leaves the
subnet untouched. -/
theorem claim_C6_witness :
    (CreateRoute az7 wC6 "c" "hint" krC6).2 = some AzError.subnetRouteTableConflict
    ∧ (CreateRoute az7 wC6 "c" "hint" krC6).1.subnet = wC6.subnet
    ∧ (CreateRoute az7 wC6 "c" "hint" krC6).1.subnetWrites = wC6.subnetWrites :=
  (claim_C6 az7 wC6 "c" "hint" krC6 subC6
      (by
        intro rt h
        injection h with h2
        rw [← h2]
        rfl)
      (by rfl)).1 "OTHER-TABLE" (by rfl) (by decide)

/-- Witness for claim C8: the ambiguity errors at concrete inputs, and the
concrete absent-pool update with its idempotent retry. -/
theorem claim_C8_witness :
    getPrimaryNicID vmC8multi = .error .noPrimaryNic
    ∧ getPrimaryIPConfig nicC8bad = .error .ambiguousIPConfig
    ∧ ((ensureHostInPool az7 wC8 "ns/svc" "vm1" "POOLID").2 = none
      ∧ (ensureHostInPool az7 wC8 "ns/svc" "vm1" "POOLID").1.nicWrites = wC8.nicWrites + 1
      ∧ lookupW (ensureHostInPool az7 wC8 "ns/svc" "vm1" "POOLID").1.nics
          (getLastSegment "/sub/nics/nic1")
        = some { nicC8 with ipConfigurations := [{ ipcC8 with loadBalancerBackendAddressPools := some ((ipcC8.loadBalancerBackendAddressPools.getD []) ++ [({ name := "", id := "POOLID" } : BackendAddressPool)]) }] }
      ∧ ensureHostInPool az7 (ensureHostInPool az7 wC8 "ns/svc" "vm1" "POOLID").1
          "ns/svc" "vm1" "POOLID"
        = ((ensureHostInPool az7 wC8 "ns/svc" "vm1" "POOLID").1, none)) :=
  ⟨claim_C8.1 vmC8multi (by decide) (by decide),
   claim_C8.2.1 nicC8bad (by decide),
   (claim_C8.2.2 az7 wC8 "ns/svc" "vm1" "POOLID" vmC8 "/sub/nics/nic1" nicC8 ipcC8
      (by rfl) (by rfl) (by decide) (by decide) (by rfl)).2 (by rfl)⟩

/-- Witness for claim C10: with both resources present, exists is true and the
ingress IP is the address of the public IP. -/
theorem claim_C10_witness :
    ((lookupW wC10.loadBalancers (getLoadBalancerName "kube")).isSome = true
      ∧ (lookupW wC10.publicIPs (getPublicIPName "kube" svc7)).isSome = true)
    ∧ (GetLoadBalancer az7 wC10 "kube" svc7).1
        = some { ingress := [{ ip := pip7.ipAddress }] } :=
  ⟨(claim_C10 az7 wC10 "kube" svc7).1 (by rfl),
   (claim_C10 az7 wC10 "kube" svc7).2.2 pip7 (by rfl) (by rfl)⟩
